import Mathlib

/-!
Shallow embedding of the WHRD tobacco-curing controller.

The repository contains two control-loop variants:
* `src/rpi4_tobacco_curing.py` — embedded in namespace `Rpi`;
* `src/222.py` — embedded in namespace `V222`.

Each iteration of the Python `while True` loop is modelled as a pure tick
function on an explicit state record.  The clock is sampled once per tick
(the Python code calls `time.time()` several times within one iteration;
the sub-millisecond drift between those calls carries no logic, so a single
`now` per tick stands for all of them).  GPIO/LCD/CSV writes are output-only
side effects driven by the state fields modelled here, so they are omitted.
Python floats are modelled as rationals.
-/

/-- Operating mode, the Python global `current_mode` ("AUTO" / "MANUAL"). -/
inductive Mode where
  | AUTO : Mode
  | MANUAL : Mode
deriving DecidableEq, Repr

/-- Result of the per-tick DHT22 read inside the `try:` block.
`ok t h` : both properties returned non-`None` values;
`noneRead` : the read returned `None` (the `if temperature is not None and
humidity is not None` guard fails, and the globals become `None`);
`fault` : the read raised `RuntimeError` (the `except` branch: only a print). -/
inductive SensorResult where
  | ok : ℚ → ℚ → SensorResult
  | noneRead : SensorResult
  | fault : SensorResult
deriving DecidableEq, Repr

/-- The debounce interval `0.2` seconds used by every button in both variants. -/
def DEBOUNCE_INTERVAL : ℚ := 1/5

/-- Python `int()` applied to a float: truncation toward zero. -/
def pyInt (q : ℚ) : ℤ := if 0 ≤ q then ⌊q⌋ else -⌊-q⌋

namespace Rpi

/-- One entry of `CURING_STAGES` in `src/rpi4_tobacco_curing.py`. -/
structure StageDef where
  temp : ℚ
  min_temp : ℚ
  max_temp : ℚ
  humidity : ℚ
  duration_hours : ℚ
  ramp_fan_on : Bool
deriving DecidableEq, Repr

def YELLOWING : StageDef :=
  { temp := 35, min_temp := 27, max_temp := 40, humidity := 85,
    duration_hours := 48, ramp_fan_on := false }

def LEAF_DRYING : StageDef :=
  { temp := 50, min_temp := 45, max_temp := 55, humidity := 70,
    duration_hours := 24, ramp_fan_on := true }

def MIDRIB_DRYING : StageDef :=
  { temp := 65, min_temp := 60, max_temp := 70, humidity := 50,
    duration_hours := 24, ramp_fan_on := true }

def ORDERING : StageDef :=
  { temp := 25, min_temp := 23, max_temp := 27, humidity := 80,
    duration_hours := 12, ramp_fan_on := false }

/-- The ordered stage table (`CURING_STAGES` / `stage_keys`). -/
def CURING_STAGES : List StageDef := [YELLOWING, LEAF_DRYING, MIDRIB_DRYING, ORDERING]

/-- Stage lookup `CURING_STAGES[stage_keys[i]]`; the engine keeps the index in range. -/
def stageAt (i : ℕ) : StageDef := CURING_STAGES.getD i YELLOWING

/-- The mutable globals of `src/rpi4_tobacco_curing.py` that the main loop
reads and writes, plus the per-button debounce timestamps local to `main`.
`temperature` / `humidity` are `Option` because the Python globals can hold
`None` after a read that returned no value. -/
structure State where
  current_mode : Mode
  current_stage_index : ℕ
  stage_start_time : ℚ
  stage_start_temp : ℚ
  auto_target_temp : ℚ
  fan_on : Bool
  dehumidifier_on : Bool
  buzzer_on : Bool
  temperature : Option ℚ
  humidity : Option ℚ
  last_mode_press : ℚ
  last_stage_press : ℚ
  last_fan_press : ℚ
  last_dehumidifier_press : ℚ
deriving DecidableEq, Repr

/-- Per-tick inputs: debounced-raw button levels (already inverted from the
pull-up GPIO read), the sensor outcome, and the tick's clock sample. -/
structure Input where
  mode_button_pressed : Bool
  stage_button_pressed : Bool
  fan_button_pressed : Bool
  dehumidifier_button_pressed : Bool
  sensor : SensorResult
  now : ℚ
deriving DecidableEq, Repr

/-- Lines 438-441: mode switching with debounce. -/
def modeSwitchStep (s : State) (inp : Input) : State :=
  if inp.mode_button_pressed = true ∧ inp.now - s.last_mode_press > DEBOUNCE_INTERVAL then
    { s with last_mode_press := inp.now,
             current_mode := if s.current_mode = Mode.AUTO then Mode.MANUAL else Mode.AUTO }
  else s

/-- Lines 444-452: manual stage advancement with debounce (any mode); the
entry temperature is reset only when the (already toggled) mode is AUTO. -/
def stageAdvanceStep (s : State) (inp : Input) : State :=
  if inp.stage_button_pressed = true ∧ inp.now - s.last_stage_press > DEBOUNCE_INTERVAL then
    let idx := (s.current_stage_index + 1) % CURING_STAGES.length
    let setpoints := stageAt idx
    { s with last_stage_press := inp.now,
             current_stage_index := idx,
             stage_start_time := inp.now,
             stage_start_temp :=
               if s.current_mode = Mode.AUTO then
                 match s.temperature with
                 | some t => t
                 | none => setpoints.min_temp
               else s.stage_start_temp }
  else s

/-- Lines 464-474: automatic stage advance in AUTO mode, strictly after the
configured duration has elapsed. -/
def autoAdvanceStep (s : State) (now : ℚ) : State :=
  let setpoints := stageAt s.current_stage_index
  if now - s.stage_start_time > setpoints.duration_hours * 3600 then
    let idx := (s.current_stage_index + 1) % CURING_STAGES.length
    { s with current_stage_index := idx,
             stage_start_time := now,
             stage_start_temp :=
               match s.temperature with
               | some t => t
               | none => (stageAt idx).min_temp }
  else s

/-- Lines 477-502: AUTO-mode target computation and fan/dehumidifier control,
entered only with a valid reading `t`. -/
def autoControlStep (s : State) (t : ℚ) (now : ℚ) : State :=
  let s := autoAdvanceStep s now
  let setpoints := stageAt s.current_stage_index
  let elapsed_hours : ℤ := pyInt ((now - s.stage_start_time) / 3600)
  let target : ℚ := s.stage_start_temp + 1 + (elapsed_hours : ℚ)
  if target < setpoints.max_temp then
    { s with auto_target_temp := target,
             fan_on := setpoints.ramp_fan_on,
             dehumidifier_on :=
               if t < target - 2 then true
               else if t > target + 2 then false
               else s.dehumidifier_on }
  else
    if t < setpoints.max_temp - 2 then
      { s with auto_target_temp := setpoints.max_temp,
               dehumidifier_on := true, fan_on := true }
    else if t > setpoints.max_temp + 2 then
      { s with auto_target_temp := setpoints.max_temp,
               dehumidifier_on := false, fan_on := false }
    else
      { s with auto_target_temp := setpoints.max_temp }

/-- Lines 504-510: MANUAL-mode fan / dehumidifier toggle buttons. -/
def manualControlStep (s : State) (inp : Input) : State :=
  let s :=
    if inp.fan_button_pressed = true ∧ inp.now - s.last_fan_press > DEBOUNCE_INTERVAL then
      { s with last_fan_press := inp.now, fan_on := !s.fan_on }
    else s
  if inp.dehumidifier_button_pressed = true ∧
      inp.now - s.last_dehumidifier_press > DEBOUNCE_INTERVAL then
    { s with last_dehumidifier_press := inp.now, dehumidifier_on := !s.dehumidifier_on }
  else s

/-- Lines 455-533: the `try:` block — sensor read, control logic, alarm.
On `fault` the `except` branch only prints; on `noneRead` the guard skips the
body; in both cases no actuator or alarm state changes. -/
def sensorStep (s : State) (inp : Input) : State :=
  match inp.sensor with
  | SensorResult.fault => s
  | SensorResult.noneRead => { s with temperature := none, humidity := none }
  | SensorResult.ok t h =>
    let s := { s with temperature := some t, humidity := some h }
    let s :=
      if s.current_mode = Mode.AUTO then autoControlStep s t inp.now
      else manualControlStep s inp
    let setpoints := stageAt s.current_stage_index
    { s with buzzer_on := !(decide (setpoints.min_temp ≤ t ∧ t ≤ setpoints.max_temp)) }

/-- One iteration of the `while True` loop of `main` (lines 430-535). -/
def tick (s : State) (inp : Input) : State :=
  sensorStep (stageAdvanceStep (modeSwitchStep s inp) inp) inp

end Rpi

namespace V222

/-- One entry of `CURING_STAGES` in `src/222.py`. -/
structure StageDef where
  temp : ℚ
  humidity : ℚ
  duration_hours : ℚ
deriving DecidableEq, Repr

def YELLOWING : StageDef := { temp := 35, humidity := 85, duration_hours := 48 }

def LEAF_DRYING : StageDef := { temp := 46, humidity := 70, duration_hours := 24 }

def MIDRIB_DRYING : StageDef := { temp := 65, humidity := 50, duration_hours := 24 }

def ORDERING : StageDef := { temp := 25, humidity := 80, duration_hours := 12 }

def CURING_STAGES : List StageDef := [YELLOWING, LEAF_DRYING, MIDRIB_DRYING, ORDERING]

def stage_keys : List String := ["YELLOWING", "LEAF_DRYING", "MIDRIB_DRYING", "ORDERING"]

/-- Name lookup `stage_keys[i]`. -/
def stageNameAt (i : ℕ) : String := stage_keys.getD i ("YELLOWING")

/-- Stage lookup `CURING_STAGES[stage_keys[i]]`. -/
def stageAt (i : ℕ) : StageDef := CURING_STAGES.getD i YELLOWING

/-- The mutable globals of `src/222.py` plus the debounce timestamps local
to its `main`.  This variant keeps no entry-temperature / target bookkeeping
and its `temperature` / `humidity` are loop locals, not state. -/
structure State where
  current_mode : Mode
  current_stage_index : ℕ
  stage_start_time : ℚ
  fan_on : Bool
  dehumidifier_on : Bool
  heater_on : Bool
  last_mode_press : ℚ
  last_stage_press : ℚ
  last_fan_press : ℚ
  last_dehumidifier_press : ℚ
deriving DecidableEq, Repr

structure Input where
  mode_button_pressed : Bool
  stage_button_pressed : Bool
  fan_button_pressed : Bool
  dehumidifier_button_pressed : Bool
  sensor : SensorResult
  now : ℚ
deriving DecidableEq, Repr

/-- Lines 169-172 of `src/222.py`: debounced mode switching. -/
def modeSwitchStep (s : State) (inp : Input) : State :=
  if inp.mode_button_pressed = true ∧ inp.now - s.last_mode_press > DEBOUNCE_INTERVAL then
    { s with last_mode_press := inp.now,
             current_mode := if s.current_mode = Mode.AUTO then Mode.MANUAL else Mode.AUTO }
  else s

/-- Lines 179-208 of `src/222.py`: the control body run on a valid reading.
`stage_name` and `setpoints` are captured once, before any stage advance in
the same tick, exactly as in the source. -/
def controlStep (s : State) (inp : Input) (t h : ℚ) : State :=
  let stage_name := stageNameAt s.current_stage_index
  let setpoints := stageAt s.current_stage_index
  if s.current_mode = Mode.AUTO then
    let s :=
      if inp.now - s.stage_start_time > setpoints.duration_hours * 3600 then
        { s with current_stage_index := (s.current_stage_index + 1) % CURING_STAGES.length,
                 stage_start_time := inp.now }
      else s
    { s with heater_on := decide (t < setpoints.temp),
             dehumidifier_on := decide (h > setpoints.humidity),
             fan_on := decide (h > setpoints.humidity) || decide (stage_name = "LEAF_DRYING") }
  else
    let s :=
      if inp.stage_button_pressed = true ∧ inp.now - s.last_stage_press > DEBOUNCE_INTERVAL then
        { s with last_stage_press := inp.now,
                 current_stage_index := (s.current_stage_index + 1) % CURING_STAGES.length,
                 stage_start_time := inp.now }
      else s
    let s :=
      if inp.fan_button_pressed = true ∧ inp.now - s.last_fan_press > DEBOUNCE_INTERVAL then
        { s with last_fan_press := inp.now, fan_on := !s.fan_on }
      else s
    let s :=
      if inp.dehumidifier_button_pressed = true ∧
          inp.now - s.last_dehumidifier_press > DEBOUNCE_INTERVAL then
        { s with last_dehumidifier_press := inp.now, dehumidifier_on := !s.dehumidifier_on }
      else s
    { s with heater_on := decide (t < setpoints.temp) }

/-- One iteration of the `while True` loop of `main` in `src/222.py`
(lines 161-223).  On a faulted or `None` read nothing past the mode switch
changes. -/
def tick (s : State) (inp : Input) : State :=
  let s := modeSwitchStep s inp
  match inp.sensor with
  | SensorResult.fault => s
  | SensorResult.noneRead => s
  | SensorResult.ok t h => controlStep s inp t h

end V222

/-! ### Concrete states and inputs used by the claim theorems -/

/-- A state holding actuators ON and the alarm asserted, fed a faulted read. -/
def exFaultState : Rpi.State :=
  { current_mode := Mode.AUTO, current_stage_index := 0, stage_start_time := 0,
    stage_start_temp := 35, auto_target_temp := 36, fan_on := true,
    dehumidifier_on := true, buzzer_on := true, temperature := some 35,
    humidity := some 80, last_mode_press := 0, last_stage_press := 0,
    last_fan_press := 0, last_dehumidifier_press := 0 }

def exFaultInput : Rpi.Input :=
  { mode_button_pressed := false, stage_button_pressed := false,
    fan_button_pressed := false, dehumidifier_button_pressed := false,
    sensor := SensorResult.fault, now := 10 }

def exFaultState222 : V222.State :=
  { current_mode := Mode.AUTO, current_stage_index := 0, stage_start_time := 0,
    fan_on := true, dehumidifier_on := true, heater_on := true,
    last_mode_press := 0, last_stage_press := 0, last_fan_press := 0,
    last_dehumidifier_press := 0 }

def exFaultInput222 : V222.Input :=
  { mode_button_pressed := false, stage_button_pressed := false,
    fan_button_pressed := false, dehumidifier_button_pressed := false,
    sensor := SensorResult.fault, now := 10 }

/-- A `None`-read input used to witness the missing-value side of C10. -/
def exNoneInput : Rpi.Input :=
  { mode_button_pressed := false, stage_button_pressed := false,
    fan_button_pressed := false, dehumidifier_button_pressed := false,
    sensor := SensorResult.noneRead, now := 10 }

/-- A state whose stage bookkeeping predates the tick, with a fresh reading
available, fed an accepted mode-toggle press. -/
def sC7 : Rpi.State :=
  { current_mode := Mode.AUTO, current_stage_index := 0, stage_start_time := 100,
    stage_start_temp := 30, auto_target_temp := 31, fan_on := false,
    dehumidifier_on := false, buzzer_on := false, temperature := some 50,
    humidity := some 80, last_mode_press := 0, last_stage_press := 0,
    last_fan_press := 0, last_dehumidifier_press := 0 }

def iC7 : Rpi.Input :=
  { mode_button_pressed := true, stage_button_pressed := false,
    fan_button_pressed := false, dehumidifier_button_pressed := false,
    sensor := SensorResult.ok 50 80, now := 200 }

def sC7v : V222.State :=
  { current_mode := Mode.AUTO, current_stage_index := 0, stage_start_time := 100,
    fan_on := false, dehumidifier_on := false, heater_on := false,
    last_mode_press := 0, last_stage_press := 0, last_fan_press := 0,
    last_dehumidifier_press := 0 }

def iC7v : V222.Input :=
  { mode_button_pressed := true, stage_button_pressed := false,
    fan_button_pressed := false, dehumidifier_button_pressed := false,
    sensor := SensorResult.ok 50 80, now := 200 }

def iC9a : Rpi.Input :=
  { mode_button_pressed := true, stage_button_pressed := true,
    fan_button_pressed := false, dehumidifier_button_pressed := false,
    sensor := SensorResult.fault, now := 1 }

def iC9b : Rpi.Input :=
  { mode_button_pressed := true, stage_button_pressed := true,
    fan_button_pressed := false, dehumidifier_button_pressed := false,
    sensor := SensorResult.fault, now := 11/10 }

def iC9f1 : Rpi.Input :=
  { mode_button_pressed := false, stage_button_pressed := false,
    fan_button_pressed := true, dehumidifier_button_pressed := false,
    sensor := SensorResult.fault, now := 1 }

def iC9f2 : Rpi.Input :=
  { mode_button_pressed := false, stage_button_pressed := false,
    fan_button_pressed := true, dehumidifier_button_pressed := false,
    sensor := SensorResult.fault, now := 11/10 }

def iC9d1 : Rpi.Input :=
  { mode_button_pressed := false, stage_button_pressed := false,
    fan_button_pressed := false, dehumidifier_button_pressed := true,
    sensor := SensorResult.fault, now := 1 }

def iC9d2 : Rpi.Input :=
  { mode_button_pressed := false, stage_button_pressed := false,
    fan_button_pressed := false, dehumidifier_button_pressed := true,
    sensor := SensorResult.fault, now := 11/10 }

def vC9m1 : V222.Input :=
  { mode_button_pressed := true, stage_button_pressed := false,
    fan_button_pressed := false, dehumidifier_button_pressed := false,
    sensor := SensorResult.fault, now := 1 }

def vC9m2 : V222.Input :=
  { mode_button_pressed := true, stage_button_pressed := false,
    fan_button_pressed := false, dehumidifier_button_pressed := false,
    sensor := SensorResult.fault, now := 11/10 }

def vC9s1 : V222.Input :=
  { mode_button_pressed := false, stage_button_pressed := true,
    fan_button_pressed := false, dehumidifier_button_pressed := false,
    sensor := SensorResult.ok 20 80, now := 1 }

def vC9s2 : V222.Input :=
  { mode_button_pressed := false, stage_button_pressed := true,
    fan_button_pressed := false, dehumidifier_button_pressed := false,
    sensor := SensorResult.ok 21 81, now := 11/10 }

def vC9f1 : V222.Input :=
  { mode_button_pressed := false, stage_button_pressed := false,
    fan_button_pressed := true, dehumidifier_button_pressed := false,
    sensor := SensorResult.ok 20 80, now := 1 }

def vC9f2 : V222.Input :=
  { mode_button_pressed := false, stage_button_pressed := false,
    fan_button_pressed := true, dehumidifier_button_pressed := false,
    sensor := SensorResult.ok 21 81, now := 11/10 }

def vC9d1 : V222.Input :=
  { mode_button_pressed := false, stage_button_pressed := false,
    fan_button_pressed := false, dehumidifier_button_pressed := true,
    sensor := SensorResult.ok 20 80, now := 1 }

def vC9d2 : V222.Input :=
  { mode_button_pressed := false, stage_button_pressed := false,
    fan_button_pressed := false, dehumidifier_button_pressed := true,
    sensor := SensorResult.ok 21 81, now := 11/10 }

/-- A MANUAL-mode state with a valid last reading (50) and a stale entry
temperature (30), fed an accepted stage-advance press. -/
def sC5 : Rpi.State :=
  { current_mode := Mode.MANUAL, current_stage_index := 0, stage_start_time := 0,
    stage_start_temp := 30, auto_target_temp := 31, fan_on := false,
    dehumidifier_on := false, buzzer_on := false, temperature := some 50,
    humidity := some 80, last_mode_press := 0, last_stage_press := 0,
    last_fan_press := 0, last_dehumidifier_press := 0 }

def iC5 : Rpi.Input :=
  { mode_button_pressed := false, stage_button_pressed := true,
    fan_button_pressed := false, dehumidifier_button_pressed := false,
    sensor := SensorResult.fault, now := 100 }

/-- An AUTO-mode state exactly at / just past the 48 h YELLOWING duration,
used to witness the two advance triggers of `C5_stage_advance`. -/
def sC5auto : Rpi.State :=
  { current_mode := Mode.AUTO, current_stage_index := 0, stage_start_time := 0,
    stage_start_temp := 35, auto_target_temp := 36, fan_on := false,
    dehumidifier_on := false, buzzer_on := false, temperature := some 38,
    humidity := some 80, last_mode_press := 0, last_stage_press := 0,
    last_fan_press := 0, last_dehumidifier_press := 0 }

/-- An AUTO tick in the ramping LEAF_DRYING stage (max 55), entered at
temperature 40, observed 3600 s and 7200 s after stage entry. -/
def sC2 : Rpi.State :=
  { current_mode := Mode.AUTO, current_stage_index := 1, stage_start_time := 0,
    stage_start_temp := 40, auto_target_temp := 41, fan_on := false,
    dehumidifier_on := false, buzzer_on := false, temperature := some 40,
    humidity := some 60, last_mode_press := 0, last_stage_press := 0,
    last_fan_press := 0, last_dehumidifier_press := 0 }

def iC2a : Rpi.Input :=
  { mode_button_pressed := false, stage_button_pressed := false,
    fan_button_pressed := false, dehumidifier_button_pressed := false,
    sensor := SensorResult.ok 41 60, now := 3600 }

def iC2b : Rpi.Input :=
  { mode_button_pressed := false, stage_button_pressed := false,
    fan_button_pressed := false, dehumidifier_button_pressed := false,
    sensor := SensorResult.ok 41 60, now := 7200 }

/-- A tick entering the flag-false YELLOWING stage at entry temperature 35,
observed 0 s and 3600 s after stage entry. -/
def sC4 : Rpi.State :=
  { current_mode := Mode.AUTO, current_stage_index := 0, stage_start_time := 0,
    stage_start_temp := 35, auto_target_temp := 36, fan_on := false,
    dehumidifier_on := false, buzzer_on := false, temperature := some 35,
    humidity := some 80, last_mode_press := 0, last_stage_press := 0,
    last_fan_press := 0, last_dehumidifier_press := 0 }

def iC4a : Rpi.Input :=
  { mode_button_pressed := false, stage_button_pressed := false,
    fan_button_pressed := false, dehumidifier_button_pressed := false,
    sensor := SensorResult.ok 35 80, now := 0 }

def iC4b : Rpi.Input :=
  { mode_button_pressed := false, stage_button_pressed := false,
    fan_button_pressed := false, dehumidifier_button_pressed := false,
    sensor := SensorResult.ok 35 80, now := 3600 }

/-- The LEAF_DRYING stage entered at 40.0, one hour in (target 42.0), with a
reading of 50.0 — inside the stage's static window [45, 55] but far outside
the 42 ± 2 window around the target. -/
def sC3 : Rpi.State :=
  { current_mode := Mode.AUTO, current_stage_index := 1, stage_start_time := 0,
    stage_start_temp := 40, auto_target_temp := 41, fan_on := false,
    dehumidifier_on := false, buzzer_on := false, temperature := some 40,
    humidity := some 80, last_mode_press := 0, last_stage_press := 0,
    last_fan_press := 0, last_dehumidifier_press := 0 }

def iC3 : Rpi.Input :=
  { mode_button_pressed := false, stage_button_pressed := false,
    fan_button_pressed := false, dehumidifier_button_pressed := false,
    sensor := SensorResult.ok 50 60, now := 3600 }

/-- An rpi-variant AUTO tick in LEAF_DRYING with humidity 90 far above the
stage setpoint 70, but temperature inside the dead zone around the ramp
target, with the dehumidifier previously OFF. -/
def sC6 : Rpi.State :=
  { current_mode := Mode.AUTO, current_stage_index := 1, stage_start_time := 0,
    stage_start_temp := 40, auto_target_temp := 41, fan_on := false,
    dehumidifier_on := false, buzzer_on := false, temperature := some 41,
    humidity := some 90, last_mode_press := 0, last_stage_press := 0,
    last_fan_press := 0, last_dehumidifier_press := 0 }

def iC6 : Rpi.Input :=
  { mode_button_pressed := false, stage_button_pressed := false,
    fan_button_pressed := false, dehumidifier_button_pressed := false,
    sensor := SensorResult.ok 41 90, now := 0 }

/-- A 222-variant AUTO tick in YELLOWING (humidity setpoint 85) with reading
humidity 90. -/
def sC6v : V222.State :=
  { current_mode := Mode.AUTO, current_stage_index := 0, stage_start_time := 0,
    fan_on := false, dehumidifier_on := false, heater_on := false,
    last_mode_press := 0, last_stage_press := 0, last_fan_press := 0,
    last_dehumidifier_press := 0 }

def iC6v : V222.Input :=
  { mode_button_pressed := false, stage_button_pressed := false,
    fan_button_pressed := false, dehumidifier_button_pressed := false,
    sensor := SensorResult.ok 30 90, now := 0 }

/-- A 222-variant MANUAL tick in YELLOWING (temp setpoint 35) with a cold
reading of 20. -/
def sC8 : V222.State :=
  { current_mode := Mode.MANUAL, current_stage_index := 0, stage_start_time := 0,
    fan_on := false, dehumidifier_on := false, heater_on := false,
    last_mode_press := 0, last_stage_press := 0, last_fan_press := 0,
    last_dehumidifier_press := 0 }

def iC8 : V222.Input :=
  { mode_button_pressed := false, stage_button_pressed := false,
    fan_button_pressed := false, dehumidifier_button_pressed := false,
    sensor := SensorResult.ok 20 80, now := 0 }

/-! ### Frame lemmas for the button-processing steps -/


theorem rpi_modeSwitch_frame (s : Rpi.State) (inp : Rpi.Input) :
    (Rpi.modeSwitchStep s inp).fan_on = s.fan_on ∧
    (Rpi.modeSwitchStep s inp).dehumidifier_on = s.dehumidifier_on ∧
    (Rpi.modeSwitchStep s inp).buzzer_on = s.buzzer_on ∧
    (Rpi.modeSwitchStep s inp).current_stage_index = s.current_stage_index ∧
    (Rpi.modeSwitchStep s inp).stage_start_time = s.stage_start_time ∧
    (Rpi.modeSwitchStep s inp).stage_start_temp = s.stage_start_temp ∧
    (Rpi.modeSwitchStep s inp).temperature = s.temperature ∧
    (Rpi.modeSwitchStep s inp).last_stage_press = s.last_stage_press := by
  unfold Rpi.modeSwitchStep
  split <;> simp

theorem rpi_stageAdvance_frame (s : Rpi.State) (inp : Rpi.Input) :
    (Rpi.stageAdvanceStep s inp).fan_on = s.fan_on ∧
    (Rpi.stageAdvanceStep s inp).dehumidifier_on = s.dehumidifier_on ∧
    (Rpi.stageAdvanceStep s inp).buzzer_on = s.buzzer_on ∧
    (Rpi.stageAdvanceStep s inp).current_mode = s.current_mode ∧
    (Rpi.stageAdvanceStep s inp).temperature = s.temperature := by
  unfold Rpi.stageAdvanceStep
  split <;> simp

theorem rpi_modeSwitch_no_press (s : Rpi.State) (inp : Rpi.Input)
    (h : inp.mode_button_pressed = false) : Rpi.modeSwitchStep s inp = s := by
  unfold Rpi.modeSwitchStep
  simp [h]

theorem rpi_stageAdvance_no_press (s : Rpi.State) (inp : Rpi.Input)
    (h : inp.stage_button_pressed = false) : Rpi.stageAdvanceStep s inp = s := by
  unfold Rpi.stageAdvanceStep
  simp [h]

theorem v222_modeSwitch_no_press (s : V222.State) (inp : V222.Input)
    (h : inp.mode_button_pressed = false) : V222.modeSwitchStep s inp = s := by
  unfold V222.modeSwitchStep
  simp [h]

theorem v222_modeSwitch_frame (s : V222.State) (inp : V222.Input) :
    (V222.modeSwitchStep s inp).fan_on = s.fan_on ∧
    (V222.modeSwitchStep s inp).dehumidifier_on = s.dehumidifier_on ∧
    (V222.modeSwitchStep s inp).heater_on = s.heater_on ∧
    (V222.modeSwitchStep s inp).current_stage_index = s.current_stage_index ∧
    (V222.modeSwitchStep s inp).stage_start_time = s.stage_start_time := by
  unfold V222.modeSwitchStep
  split <;> simp

/-! ### Claim C1 -/

/-- Claim C1, counterexample: on a faulted tick the actuators are NOT forced
OFF and the alarm is NOT deasserted — a tick entered with fan, dehumidifier
and alarm ON (heater ON in the 222 variant) leaves every one of them ON. -/
theorem C1_fault_not_forced_off_counterexample :
    (Rpi.tick exFaultState exFaultInput).fan_on = true ∧
    (Rpi.tick exFaultState exFaultInput).dehumidifier_on = true ∧
    (Rpi.tick exFaultState exFaultInput).buzzer_on = true ∧
    (V222.tick exFaultState222 exFaultInput222).fan_on = true ∧
    (V222.tick exFaultState222 exFaultInput222).dehumidifier_on = true ∧
    (V222.tick exFaultState222 exFaultInput222).heater_on = true := by
  decide

/-- Claim C1, amended: on every tick whose sensor read raises a fault, the
actuator commands and the alarm flag are left exactly as they were at the end
of the previous tick (the `except` branch only prints), and no fault flag
exists anywhere in the emitted state, in either variant. -/
theorem C1_fault_leaves_outputs_unchanged
    (s : Rpi.State) (inp : Rpi.Input) (s2 : V222.State) (inp2 : V222.Input)
    (hf : inp.sensor = SensorResult.fault) (hf2 : inp2.sensor = SensorResult.fault) :
    (Rpi.tick s inp).fan_on = s.fan_on ∧
    (Rpi.tick s inp).dehumidifier_on = s.dehumidifier_on ∧
    (Rpi.tick s inp).buzzer_on = s.buzzer_on ∧
    (V222.tick s2 inp2).fan_on = s2.fan_on ∧
    (V222.tick s2 inp2).dehumidifier_on = s2.dehumidifier_on ∧
    (V222.tick s2 inp2).heater_on = s2.heater_on := by
  have h1 := rpi_modeSwitch_frame s inp
  have h2 := rpi_stageAdvance_frame (Rpi.modeSwitchStep s inp) inp
  have h3 := v222_modeSwitch_frame s2 inp2
  unfold Rpi.tick Rpi.sensorStep V222.tick
  rw [hf, hf2]
  refine ⟨?_, ?_, ?_, h3.1, h3.2.1, h3.2.2.1⟩
  · exact h2.1.trans h1.1
  · exact h2.2.1.trans h1.2.1
  · exact h2.2.2.1.trans h1.2.2.1

/-- Witness for `C1_fault_leaves_outputs_unchanged` at a concrete faulted tick. -/
theorem C1_fault_leaves_outputs_unchanged_witness :
    exFaultInput.sensor = SensorResult.fault ∧
    exFaultInput222.sensor = SensorResult.fault ∧
    ((Rpi.tick exFaultState exFaultInput).fan_on = exFaultState.fan_on ∧
     (Rpi.tick exFaultState exFaultInput).dehumidifier_on = exFaultState.dehumidifier_on ∧
     (Rpi.tick exFaultState exFaultInput).buzzer_on = exFaultState.buzzer_on ∧
     (V222.tick exFaultState222 exFaultInput222).fan_on = exFaultState222.fan_on ∧
     (V222.tick exFaultState222 exFaultInput222).dehumidifier_on
        = exFaultState222.dehumidifier_on ∧
     (V222.tick exFaultState222 exFaultInput222).heater_on = exFaultState222.heater_on) :=
  ⟨rfl, rfl,
    C1_fault_leaves_outputs_unchanged exFaultState exFaultInput
      exFaultState222 exFaultInput222 rfl rfl⟩

/-! ### Claim C10 -/

/-- Claim C10: on any tick whose read fails (raised fault or `None` values),
every actuator-command variable and the alarm flag keep exactly their previous
values, while the mode-toggle and stage-advance button handling that runs
before the read still takes effect: the resulting mode and stage bookkeeping
are exactly those produced by the button steps (in the 222 variant the mode
toggle is the only button handled before the read). -/
theorem C10_error_path_preserves_actuators
    (s : Rpi.State) (inp : Rpi.Input) (s2 : V222.State) (inp2 : V222.Input)
    (hf : inp.sensor = SensorResult.fault ∨ inp.sensor = SensorResult.noneRead)
    (hf2 : inp2.sensor = SensorResult.fault ∨ inp2.sensor = SensorResult.noneRead) :
    ((Rpi.tick s inp).fan_on = s.fan_on ∧
     (Rpi.tick s inp).dehumidifier_on = s.dehumidifier_on ∧
     (Rpi.tick s inp).buzzer_on = s.buzzer_on) ∧
    ((Rpi.tick s inp).current_mode
        = (Rpi.stageAdvanceStep (Rpi.modeSwitchStep s inp) inp).current_mode ∧
     (Rpi.tick s inp).current_stage_index
        = (Rpi.stageAdvanceStep (Rpi.modeSwitchStep s inp) inp).current_stage_index ∧
     (Rpi.tick s inp).stage_start_time
        = (Rpi.stageAdvanceStep (Rpi.modeSwitchStep s inp) inp).stage_start_time ∧
     (Rpi.tick s inp).stage_start_temp
        = (Rpi.stageAdvanceStep (Rpi.modeSwitchStep s inp) inp).stage_start_temp) ∧
    ((V222.tick s2 inp2).fan_on = s2.fan_on ∧
     (V222.tick s2 inp2).dehumidifier_on = s2.dehumidifier_on ∧
     (V222.tick s2 inp2).heater_on = s2.heater_on ∧
     (V222.tick s2 inp2).current_mode = (V222.modeSwitchStep s2 inp2).current_mode) := by
  have h1 := rpi_modeSwitch_frame s inp
  have h2 := rpi_stageAdvance_frame (Rpi.modeSwitchStep s inp) inp
  have h3 := v222_modeSwitch_frame s2 inp2
  unfold Rpi.tick Rpi.sensorStep V222.tick
  rcases hf with hf | hf <;> rcases hf2 with hf2 | hf2 <;> rw [hf, hf2] <;>
    exact ⟨⟨h2.1.trans h1.1, h2.2.1.trans h1.2.1, h2.2.2.1.trans h1.2.2.1⟩,
      ⟨rfl, rfl, rfl, rfl⟩, h3.1, h3.2.1, h3.2.2.1, rfl⟩

/-- Witness for `C10_error_path_preserves_actuators` at a concrete tick whose
read returned `None` (rpi variant) and raised a fault (222 variant). -/
theorem C10_error_path_preserves_actuators_witness :
    (exNoneInput.sensor = SensorResult.fault ∨ exNoneInput.sensor = SensorResult.noneRead) ∧
    (((Rpi.tick exFaultState exNoneInput).fan_on = exFaultState.fan_on ∧
      (Rpi.tick exFaultState exNoneInput).dehumidifier_on = exFaultState.dehumidifier_on ∧
      (Rpi.tick exFaultState exNoneInput).buzzer_on = exFaultState.buzzer_on) ∧
     ((Rpi.tick exFaultState exNoneInput).current_mode
        = (Rpi.stageAdvanceStep (Rpi.modeSwitchStep exFaultState exNoneInput)
            exNoneInput).current_mode ∧
      (Rpi.tick exFaultState exNoneInput).current_stage_index
        = (Rpi.stageAdvanceStep (Rpi.modeSwitchStep exFaultState exNoneInput)
            exNoneInput).current_stage_index ∧
      (Rpi.tick exFaultState exNoneInput).stage_start_time
        = (Rpi.stageAdvanceStep (Rpi.modeSwitchStep exFaultState exNoneInput)
            exNoneInput).stage_start_time ∧
      (Rpi.tick exFaultState exNoneInput).stage_start_temp
        = (Rpi.stageAdvanceStep (Rpi.modeSwitchStep exFaultState exNoneInput)
            exNoneInput).stage_start_temp) ∧
     ((V222.tick exFaultState222 exFaultInput222).fan_on = exFaultState222.fan_on ∧
      (V222.tick exFaultState222 exFaultInput222).dehumidifier_on
        = exFaultState222.dehumidifier_on ∧
      (V222.tick exFaultState222 exFaultInput222).heater_on = exFaultState222.heater_on ∧
      (V222.tick exFaultState222 exFaultInput222).current_mode
        = (V222.modeSwitchStep exFaultState222 exFaultInput222).current_mode)) :=
  ⟨Or.inr rfl,
    C10_error_path_preserves_actuators exFaultState exNoneInput
      exFaultState222 exFaultInput222 (Or.inr rfl) (Or.inl rfl)⟩

/-! ### Claim C7 -/

/-- Claim C7, counterexample: an accepted mode toggle does NOT reset
`stage_start_time` to `now` and does NOT reset `stage_start_temp` to the
current reading — the mode flips while both bookkeeping fields keep their
stale values. -/
theorem C7_mode_toggle_no_reset_counterexample :
    (Rpi.tick sC7 iC7).current_mode = Mode.MANUAL ∧
    (Rpi.tick sC7 iC7).stage_start_time = sC7.stage_start_time ∧
    (Rpi.tick sC7 iC7).stage_start_temp = sC7.stage_start_temp ∧
    sC7.stage_start_time ≠ iC7.now ∧
    sC7.temperature = some 50 ∧ sC7.stage_start_temp ≠ 50 := by
  norm_num [Rpi.tick, Rpi.sensorStep, Rpi.manualControlStep, Rpi.autoControlStep,
    Rpi.autoAdvanceStep, Rpi.stageAdvanceStep, Rpi.modeSwitchStep, Rpi.stageAt,
    Rpi.CURING_STAGES, Rpi.YELLOWING, DEBOUNCE_INTERVAL, sC7, iC7]
  split_ifs <;> norm_num

/-- Claim C7, amended: an accepted mode-toggle event changes exactly the mode
and the mode button's debounce timestamp; stage index, stage entry time and
stage entry temperature are all left unchanged (no reset of the ramp
bookkeeping happens), in both variants. -/
theorem C7_mode_toggle_only_mode
    (s : Rpi.State) (inp : Rpi.Input) (s2 : V222.State) (inp2 : V222.Input)
    (h1 : inp.mode_button_pressed = true)
    (h2 : inp.now - s.last_mode_press > DEBOUNCE_INTERVAL)
    (h3 : inp2.mode_button_pressed = true)
    (h4 : inp2.now - s2.last_mode_press > DEBOUNCE_INTERVAL) :
    Rpi.modeSwitchStep s inp =
      { s with current_mode := if s.current_mode = Mode.AUTO then Mode.MANUAL else Mode.AUTO,
               last_mode_press := inp.now } ∧
    V222.modeSwitchStep s2 inp2 =
      { s2 with current_mode := if s2.current_mode = Mode.AUTO then Mode.MANUAL else Mode.AUTO,
                last_mode_press := inp2.now } := by
  refine ⟨?_, ?_⟩
  · unfold Rpi.modeSwitchStep
    rw [if_pos ⟨h1, h2⟩]
  · unfold V222.modeSwitchStep
    rw [if_pos ⟨h3, h4⟩]

/-- Witness for `C7_mode_toggle_only_mode` at concrete accepted presses. -/
theorem C7_mode_toggle_only_mode_witness :
    iC7.mode_button_pressed = true ∧
    iC7.now - sC7.last_mode_press > DEBOUNCE_INTERVAL ∧
    (Rpi.modeSwitchStep sC7 iC7 =
      { sC7 with
        current_mode := if sC7.current_mode = Mode.AUTO then Mode.MANUAL else Mode.AUTO,
        last_mode_press := iC7.now } ∧
     V222.modeSwitchStep sC7v iC7v =
      { sC7v with
        current_mode := if sC7v.current_mode = Mode.AUTO then Mode.MANUAL else Mode.AUTO,
        last_mode_press := iC7v.now }) :=
  ⟨rfl, by norm_num [iC7, sC7, DEBOUNCE_INTERVAL],
    C7_mode_toggle_only_mode sC7 iC7 sC7v iC7v rfl
      (by norm_num [iC7, sC7, DEBOUNCE_INTERVAL])
      rfl (by norm_num [iC7v, sC7v, DEBOUNCE_INTERVAL])⟩

/-! ### Claim C9 -/

theorem rpi_stages_length : Rpi.CURING_STAGES.length = 4 := rfl

theorem v222_stages_length : V222.CURING_STAGES.length = 4 := rfl

theorem mode_manual_ne_auto : ¬ (Mode.MANUAL = Mode.AUTO) := by decide

/-- An accepted fan press (dehumidifier level unasserted) toggles the fan and
stamps its debounce timestamp. -/
theorem rpi_manualControl_fan_first (s : Rpi.State) (inp : Rpi.Input)
    (hp : inp.fan_button_pressed = true)
    (hd : inp.dehumidifier_button_pressed = false)
    (hacc : inp.now - s.last_fan_press > DEBOUNCE_INTERVAL) :
    Rpi.manualControlStep s inp
      = { s with last_fan_press := inp.now, fan_on := !s.fan_on } := by
  have hdneg : ¬ (inp.dehumidifier_button_pressed = true ∧
      inp.now - (if inp.fan_button_pressed = true ∧
          inp.now - s.last_fan_press > DEBOUNCE_INTERVAL then
        { s with last_fan_press := inp.now, fan_on := !s.fan_on }
      else s).last_dehumidifier_press > DEBOUNCE_INTERVAL) := by simp [hd]
  unfold Rpi.manualControlStep
  rw [if_neg hdneg, if_pos ⟨hp, hacc⟩]

/-- An accepted dehumidifier press (fan level unasserted) toggles the
dehumidifier and stamps its debounce timestamp. -/
theorem rpi_manualControl_dehum_first (s : Rpi.State) (inp : Rpi.Input)
    (hp : inp.dehumidifier_button_pressed = true)
    (hf : inp.fan_button_pressed = false)
    (hacc : inp.now - s.last_dehumidifier_press > DEBOUNCE_INTERVAL) :
    Rpi.manualControlStep s inp
      = { s with last_dehumidifier_press := inp.now,
                 dehumidifier_on := !s.dehumidifier_on } := by
  have hfneg : ¬ (inp.fan_button_pressed = true ∧
      inp.now - s.last_fan_press > DEBOUNCE_INTERVAL) := by simp [hf]
  unfold Rpi.manualControlStep
  rw [if_neg hfneg, if_pos ⟨hp, hacc⟩]

/-- When neither manual toggle is accepted (level unasserted or inside the
debounce interval), the MANUAL control handling changes nothing. -/
theorem rpi_manualControl_no_event (s : Rpi.State) (inp : Rpi.Input)
    (hf : ¬ (inp.fan_button_pressed = true ∧
      inp.now - s.last_fan_press > DEBOUNCE_INTERVAL))
    (hd : ¬ (inp.dehumidifier_button_pressed = true ∧
      inp.now - s.last_dehumidifier_press > DEBOUNCE_INTERVAL)) :
    Rpi.manualControlStep s inp = s := by
  unfold Rpi.manualControlStep
  rw [if_neg hf, if_neg hd]

/-- 222 variant, MANUAL branch: an accepted stage press (fan and dehumidifier
levels unasserted) advances the stage, resets the stage clock, stamps the
stage debounce timestamp, and recomputes only the heater. -/
theorem v222_control_manual_stage_first (s : V222.State) (inp : V222.Input) (t h : ℚ)
    (hv : s.current_mode = Mode.MANUAL)
    (hp : inp.stage_button_pressed = true)
    (hf : inp.fan_button_pressed = false)
    (hd : inp.dehumidifier_button_pressed = false)
    (hacc : inp.now - s.last_stage_press > DEBOUNCE_INTERVAL) :
    V222.controlStep s inp t h
      = { s with last_stage_press := inp.now,
                 current_stage_index := (s.current_stage_index + 1)
                   % V222.CURING_STAGES.length,
                 stage_start_time := inp.now,
                 heater_on := decide (t < (V222.stageAt s.current_stage_index).temp) } := by
  have hne : ¬ (s.current_mode = Mode.AUTO) := fun hc => by
    rw [hv] at hc
    exact mode_manual_ne_auto hc
  unfold V222.controlStep
  rw [if_neg hne]
  dsimp only
  simp [hp, hacc, hf, hd]

/-- 222 variant, MANUAL branch: an accepted fan press (stage and dehumidifier
levels unasserted) toggles the fan, stamps its timestamp, and recomputes only
the heater. -/
theorem v222_control_manual_fan_first (s : V222.State) (inp : V222.Input) (t h : ℚ)
    (hv : s.current_mode = Mode.MANUAL)
    (hp : inp.fan_button_pressed = true)
    (hs : inp.stage_button_pressed = false)
    (hd : inp.dehumidifier_button_pressed = false)
    (hacc : inp.now - s.last_fan_press > DEBOUNCE_INTERVAL) :
    V222.controlStep s inp t h
      = { s with last_fan_press := inp.now, fan_on := !s.fan_on,
                 heater_on := decide (t < (V222.stageAt s.current_stage_index).temp) } := by
  have hne : ¬ (s.current_mode = Mode.AUTO) := fun hc => by
    rw [hv] at hc
    exact mode_manual_ne_auto hc
  unfold V222.controlStep
  rw [if_neg hne]
  dsimp only
  simp [hp, hacc, hs, hd]

/-- 222 variant, MANUAL branch: an accepted dehumidifier press (stage and fan
levels unasserted) toggles the dehumidifier, stamps its timestamp, and
recomputes only the heater. -/
theorem v222_control_manual_dehum_first (s : V222.State) (inp : V222.Input) (t h : ℚ)
    (hv : s.current_mode = Mode.MANUAL)
    (hp : inp.dehumidifier_button_pressed = true)
    (hs : inp.stage_button_pressed = false)
    (hf : inp.fan_button_pressed = false)
    (hacc : inp.now - s.last_dehumidifier_press > DEBOUNCE_INTERVAL) :
    V222.controlStep s inp t h
      = { s with last_dehumidifier_press := inp.now,
                 dehumidifier_on := !s.dehumidifier_on,
                 heater_on := decide (t < (V222.stageAt s.current_stage_index).temp) } := by
  have hne : ¬ (s.current_mode = Mode.AUTO) := fun hc => by
    rw [hv] at hc
    exact mode_manual_ne_auto hc
  unfold V222.controlStep
  rw [if_neg hne]
  dsimp only
  simp [hp, hacc, hs, hf]

/-- 222 variant, MANUAL branch: when no button press is accepted the control
body only recomputes the heater — stage, fan and dehumidifier are untouched. -/
theorem v222_control_manual_no_event (s : V222.State) (inp : V222.Input) (t h : ℚ)
    (hv : s.current_mode = Mode.MANUAL)
    (hs : ¬ (inp.stage_button_pressed = true ∧
      inp.now - s.last_stage_press > DEBOUNCE_INTERVAL))
    (hf : ¬ (inp.fan_button_pressed = true ∧
      inp.now - s.last_fan_press > DEBOUNCE_INTERVAL))
    (hd : ¬ (inp.dehumidifier_button_pressed = true ∧
      inp.now - s.last_dehumidifier_press > DEBOUNCE_INTERVAL)) :
    V222.controlStep s inp t h
      = { s with heater_on := decide (t < (V222.stageAt s.current_stage_index).temp) } := by
  have hne : ¬ (s.current_mode = Mode.AUTO) := fun hc => by
    rw [hv] at hc
    exact mode_manual_ne_auto hc
  unfold V222.controlStep
  rw [if_neg hne]
  dsimp only
  simp [hs, hf, hd]

/-- Claim C9: for every button in both variants — mode, stage, fan and
dehumidifier — a raw press is accepted as a logical event only when the raw
level is asserted and `now` minus that button's last-accepted timestamp
exceeds the debounce interval, with the timestamp updated to `now` on
acceptance; consequently, for an accepted press followed by a second raw
press of the same button less than the debounce interval later, exactly one
logical event results: the first press toggles/advances and stamps the
timestamp, the second changes none of that button's state.  An unasserted
level is never accepted. -/
theorem C9_debounce_single_edge
    (s : Rpi.State) (i1 i2 j1 j2 f1 f2 d1 d2 : Rpi.Input)
    (sv : V222.State) (m1 m2 js1 js2 fs1 fs2 ds1 ds2 : V222.Input) (t h t2 h2 : ℚ)
    (hm1p : i1.mode_button_pressed = true)
    (hm1a : i1.now - s.last_mode_press > DEBOUNCE_INTERVAL)
    (hm2p : i2.mode_button_pressed = true)
    (hm2c : i2.now - i1.now < DEBOUNCE_INTERVAL)
    (hs1p : j1.stage_button_pressed = true)
    (hs1a : j1.now - s.last_stage_press > DEBOUNCE_INTERVAL)
    (hs2p : j2.stage_button_pressed = true)
    (hs2c : j2.now - j1.now < DEBOUNCE_INTERVAL)
    (hf1p : f1.fan_button_pressed = true)
    (hf1d : f1.dehumidifier_button_pressed = false)
    (hf1a : f1.now - s.last_fan_press > DEBOUNCE_INTERVAL)
    (hf2p : f2.fan_button_pressed = true)
    (hf2d : f2.dehumidifier_button_pressed = false)
    (hf2c : f2.now - f1.now < DEBOUNCE_INTERVAL)
    (hd1p : d1.dehumidifier_button_pressed = true)
    (hd1f : d1.fan_button_pressed = false)
    (hd1a : d1.now - s.last_dehumidifier_press > DEBOUNCE_INTERVAL)
    (hd2p : d2.dehumidifier_button_pressed = true)
    (hd2f : d2.fan_button_pressed = false)
    (hd2c : d2.now - d1.now < DEBOUNCE_INTERVAL)
    (hv : sv.current_mode = Mode.MANUAL)
    (hvm1p : m1.mode_button_pressed = true)
    (hvm1a : m1.now - sv.last_mode_press > DEBOUNCE_INTERVAL)
    (hvm2p : m2.mode_button_pressed = true)
    (hvm2c : m2.now - m1.now < DEBOUNCE_INTERVAL)
    (hvs1p : js1.stage_button_pressed = true)
    (hvs1f : js1.fan_button_pressed = false)
    (hvs1d : js1.dehumidifier_button_pressed = false)
    (hvs1a : js1.now - sv.last_stage_press > DEBOUNCE_INTERVAL)
    (hvs2p : js2.stage_button_pressed = true)
    (hvs2f : js2.fan_button_pressed = false)
    (hvs2d : js2.dehumidifier_button_pressed = false)
    (hvs2c : js2.now - js1.now < DEBOUNCE_INTERVAL)
    (hvf1p : fs1.fan_button_pressed = true)
    (hvf1s : fs1.stage_button_pressed = false)
    (hvf1d : fs1.dehumidifier_button_pressed = false)
    (hvf1a : fs1.now - sv.last_fan_press > DEBOUNCE_INTERVAL)
    (hvf2p : fs2.fan_button_pressed = true)
    (hvf2s : fs2.stage_button_pressed = false)
    (hvf2d : fs2.dehumidifier_button_pressed = false)
    (hvf2c : fs2.now - fs1.now < DEBOUNCE_INTERVAL)
    (hvd1p : ds1.dehumidifier_button_pressed = true)
    (hvd1s : ds1.stage_button_pressed = false)
    (hvd1f : ds1.fan_button_pressed = false)
    (hvd1a : ds1.now - sv.last_dehumidifier_press > DEBOUNCE_INTERVAL)
    (hvd2p : ds2.dehumidifier_button_pressed = true)
    (hvd2s : ds2.stage_button_pressed = false)
    (hvd2f : ds2.fan_button_pressed = false)
    (hvd2c : ds2.now - ds1.now < DEBOUNCE_INTERVAL) :
    ((Rpi.modeSwitchStep s i1).current_mode
        = (if s.current_mode = Mode.AUTO then Mode.MANUAL else Mode.AUTO) ∧
     (Rpi.modeSwitchStep s i1).last_mode_press = i1.now ∧
     Rpi.modeSwitchStep (Rpi.modeSwitchStep s i1) i2 = Rpi.modeSwitchStep s i1) ∧
    ((Rpi.stageAdvanceStep s j1).current_stage_index = (s.current_stage_index + 1) % 4 ∧
     (Rpi.stageAdvanceStep s j1).last_stage_press = j1.now ∧
     Rpi.stageAdvanceStep (Rpi.stageAdvanceStep s j1) j2 = Rpi.stageAdvanceStep s j1) ∧
    ((Rpi.manualControlStep s f1).fan_on = !s.fan_on ∧
     (Rpi.manualControlStep s f1).last_fan_press = f1.now ∧
     Rpi.manualControlStep (Rpi.manualControlStep s f1) f2 = Rpi.manualControlStep s f1) ∧
    ((Rpi.manualControlStep s d1).dehumidifier_on = !s.dehumidifier_on ∧
     (Rpi.manualControlStep s d1).last_dehumidifier_press = d1.now ∧
     Rpi.manualControlStep (Rpi.manualControlStep s d1) d2 = Rpi.manualControlStep s d1) ∧
    ((V222.modeSwitchStep sv m1).current_mode
        = (if sv.current_mode = Mode.AUTO then Mode.MANUAL else Mode.AUTO) ∧
     (V222.modeSwitchStep sv m1).last_mode_press = m1.now ∧
     V222.modeSwitchStep (V222.modeSwitchStep sv m1) m2 = V222.modeSwitchStep sv m1) ∧
    ((V222.controlStep sv js1 t h).current_stage_index
        = (sv.current_stage_index + 1) % 4 ∧
     (V222.controlStep sv js1 t h).stage_start_time = js1.now ∧
     (V222.controlStep sv js1 t h).last_stage_press = js1.now ∧
     (V222.controlStep (V222.controlStep sv js1 t h) js2 t2 h2).current_stage_index
        = (V222.controlStep sv js1 t h).current_stage_index ∧
     (V222.controlStep (V222.controlStep sv js1 t h) js2 t2 h2).stage_start_time
        = (V222.controlStep sv js1 t h).stage_start_time ∧
     (V222.controlStep (V222.controlStep sv js1 t h) js2 t2 h2).last_stage_press
        = (V222.controlStep sv js1 t h).last_stage_press) ∧
    ((V222.controlStep sv fs1 t h).fan_on = !sv.fan_on ∧
     (V222.controlStep sv fs1 t h).last_fan_press = fs1.now ∧
     (V222.controlStep (V222.controlStep sv fs1 t h) fs2 t2 h2).fan_on
        = (V222.controlStep sv fs1 t h).fan_on ∧
     (V222.controlStep (V222.controlStep sv fs1 t h) fs2 t2 h2).last_fan_press
        = (V222.controlStep sv fs1 t h).last_fan_press) ∧
    ((V222.controlStep sv ds1 t h).dehumidifier_on = !sv.dehumidifier_on ∧
     (V222.controlStep sv ds1 t h).last_dehumidifier_press = ds1.now ∧
     (V222.controlStep (V222.controlStep sv ds1 t h) ds2 t2 h2).dehumidifier_on
        = (V222.controlStep sv ds1 t h).dehumidifier_on ∧
     (V222.controlStep (V222.controlStep sv ds1 t h) ds2 t2 h2).last_dehumidifier_press
        = (V222.controlStep sv ds1 t h).last_dehumidifier_press) ∧
    (∀ (s0 : Rpi.State) (i0 : Rpi.Input),
      i0.mode_button_pressed = false → Rpi.modeSwitchStep s0 i0 = s0) ∧
    (∀ (s0 : Rpi.State) (i0 : Rpi.Input),
      i0.stage_button_pressed = false → Rpi.stageAdvanceStep s0 i0 = s0) ∧
    (∀ (s0 : Rpi.State) (i0 : Rpi.Input),
      i0.fan_button_pressed = false → i0.dehumidifier_button_pressed = false →
      Rpi.manualControlStep s0 i0 = s0) ∧
    (∀ (s0 : V222.State) (i0 : V222.Input),
      i0.mode_button_pressed = false → V222.modeSwitchStep s0 i0 = s0) := by
  have em : Rpi.modeSwitchStep s i1 =
      { s with current_mode := if s.current_mode = Mode.AUTO then Mode.MANUAL else Mode.AUTO,
               last_mode_press := i1.now } := by
    unfold Rpi.modeSwitchStep
    rw [if_pos ⟨hm1p, hm1a⟩]
  have em2 : Rpi.modeSwitchStep (Rpi.modeSwitchStep s i1) i2 = Rpi.modeSwitchStep s i1 := by
    have hlt : ¬ (i2.now - (Rpi.modeSwitchStep s i1).last_mode_press > DEBOUNCE_INTERVAL) := by
      rw [em]
      exact not_lt.mpr (le_of_lt hm2c)
    unfold Rpi.modeSwitchStep
    rw [if_neg (fun hc => hlt hc.2)]
  have es : Rpi.stageAdvanceStep s j1 =
      { s with
        last_stage_press := j1.now,
        current_stage_index := (s.current_stage_index + 1) % Rpi.CURING_STAGES.length,
        stage_start_time := j1.now,
        stage_start_temp :=
          if s.current_mode = Mode.AUTO then
            match s.temperature with
            | some tr => tr
            | none => (Rpi.stageAt ((s.current_stage_index + 1)
                % Rpi.CURING_STAGES.length)).min_temp
          else s.stage_start_temp } := by
    unfold Rpi.stageAdvanceStep
    rw [if_pos ⟨hs1p, hs1a⟩]
  have es2 : Rpi.stageAdvanceStep (Rpi.stageAdvanceStep s j1) j2
      = Rpi.stageAdvanceStep s j1 := by
    have hlt : ¬ (j2.now - (Rpi.stageAdvanceStep s j1).last_stage_press
        > DEBOUNCE_INTERVAL) := by
      rw [es]
      exact not_lt.mpr (le_of_lt hs2c)
    unfold Rpi.stageAdvanceStep
    rw [if_neg (fun hc => hlt hc.2)]
  have ef : Rpi.manualControlStep s f1 =
      { s with last_fan_press := f1.now, fan_on := !s.fan_on } :=
    rpi_manualControl_fan_first s f1 hf1p hf1d hf1a
  have ef2 : Rpi.manualControlStep (Rpi.manualControlStep s f1) f2
      = Rpi.manualControlStep s f1 := by
    apply rpi_manualControl_no_event
    · rw [ef]
      exact fun hc => absurd hc.2 (not_lt.mpr (le_of_lt hf2c))
    · simp [hf2d]
  have ed : Rpi.manualControlStep s d1 =
      { s with last_dehumidifier_press := d1.now,
               dehumidifier_on := !s.dehumidifier_on } :=
    rpi_manualControl_dehum_first s d1 hd1p hd1f hd1a
  have ed2 : Rpi.manualControlStep (Rpi.manualControlStep s d1) d2
      = Rpi.manualControlStep s d1 := by
    apply rpi_manualControl_no_event
    · simp [hd2f]
    · rw [ed]
      exact fun hc => absurd hc.2 (not_lt.mpr (le_of_lt hd2c))
  have evm : V222.modeSwitchStep sv m1 =
      { sv with current_mode := if sv.current_mode = Mode.AUTO then Mode.MANUAL else Mode.AUTO,
                last_mode_press := m1.now } := by
    unfold V222.modeSwitchStep
    rw [if_pos ⟨hvm1p, hvm1a⟩]
  have evm2 : V222.modeSwitchStep (V222.modeSwitchStep sv m1) m2
      = V222.modeSwitchStep sv m1 := by
    have hlt : ¬ (m2.now - (V222.modeSwitchStep sv m1).last_mode_press
        > DEBOUNCE_INTERVAL) := by
      rw [evm]
      exact not_lt.mpr (le_of_lt hvm2c)
    unfold V222.modeSwitchStep
    rw [if_neg (fun hc => hlt hc.2)]
  have ejs : V222.controlStep sv js1 t h =
      { sv with last_stage_press := js1.now,
                current_stage_index := (sv.current_stage_index + 1)
                  % V222.CURING_STAGES.length,
                stage_start_time := js1.now,
                heater_on := decide (t < (V222.stageAt sv.current_stage_index).temp) } :=
    v222_control_manual_stage_first sv js1 t h hv hvs1p hvs1f hvs1d hvs1a
  have hvjs : (V222.controlStep sv js1 t h).current_mode = Mode.MANUAL := by
    rw [ejs]
    exact hv
  have ejs2 : V222.controlStep (V222.controlStep sv js1 t h) js2 t2 h2 =
      { V222.controlStep sv js1 t h with
        heater_on := decide (t2 < (V222.stageAt
          (V222.controlStep sv js1 t h).current_stage_index).temp) } := by
    apply v222_control_manual_no_event _ _ _ _ hvjs
    · rw [ejs]
      exact fun hc => absurd hc.2 (not_lt.mpr (le_of_lt hvs2c))
    · simp [hvs2f]
    · simp [hvs2d]
  have efs : V222.controlStep sv fs1 t h =
      { sv with last_fan_press := fs1.now, fan_on := !sv.fan_on,
                heater_on := decide (t < (V222.stageAt sv.current_stage_index).temp) } :=
    v222_control_manual_fan_first sv fs1 t h hv hvf1p hvf1s hvf1d hvf1a
  have hvfs : (V222.controlStep sv fs1 t h).current_mode = Mode.MANUAL := by
    rw [efs]
    exact hv
  have efs2 : V222.controlStep (V222.controlStep sv fs1 t h) fs2 t2 h2 =
      { V222.controlStep sv fs1 t h with
        heater_on := decide (t2 < (V222.stageAt
          (V222.controlStep sv fs1 t h).current_stage_index).temp) } := by
    apply v222_control_manual_no_event _ _ _ _ hvfs
    · simp [hvf2s]
    · rw [efs]
      exact fun hc => absurd hc.2 (not_lt.mpr (le_of_lt hvf2c))
    · simp [hvf2d]
  have eds : V222.controlStep sv ds1 t h =
      { sv with last_dehumidifier_press := ds1.now,
                dehumidifier_on := !sv.dehumidifier_on,
                heater_on := decide (t < (V222.stageAt sv.current_stage_index).temp) } :=
    v222_control_manual_dehum_first sv ds1 t h hv hvd1p hvd1s hvd1f hvd1a
  have hvds : (V222.controlStep sv ds1 t h).current_mode = Mode.MANUAL := by
    rw [eds]
    exact hv
  have eds2 : V222.controlStep (V222.controlStep sv ds1 t h) ds2 t2 h2 =
      { V222.controlStep sv ds1 t h with
        heater_on := decide (t2 < (V222.stageAt
          (V222.controlStep sv ds1 t h).current_stage_index).temp) } := by
    apply v222_control_manual_no_event _ _ _ _ hvds
    · simp [hvd2s]
    · simp [hvd2f]
    · rw [eds]
      exact fun hc => absurd hc.2 (not_lt.mpr (le_of_lt hvd2c))
  refine ⟨⟨by rw [em], by rw [em], em2⟩,
      ⟨by rw [es, rpi_stages_length], by rw [es], es2⟩,
      ⟨by rw [ef], by rw [ef], ef2⟩,
      ⟨by rw [ed], by rw [ed], ed2⟩,
      ⟨by rw [evm], by rw [evm], evm2⟩,
      ⟨by rw [ejs, v222_stages_length], by rw [ejs], by rw [ejs],
        by rw [ejs2], by rw [ejs2], by rw [ejs2]⟩,
      ⟨by rw [efs], by rw [efs], by rw [efs2], by rw [efs2]⟩,
      ⟨by rw [eds], by rw [eds], by rw [eds2], by rw [eds2]⟩,
      fun s0 i0 h0 => rpi_modeSwitch_no_press s0 i0 h0,
      fun s0 i0 h0 => rpi_stageAdvance_no_press s0 i0 h0,
      fun s0 i0 h0f h0d =>
        rpi_manualControl_no_event s0 i0 (by simp [h0f]) (by simp [h0d]),
      fun s0 i0 h0 => v222_modeSwitch_no_press s0 i0 h0⟩

/-- Witness for `C9_debounce_single_edge`: for each of the eight buttons, two
presses at times 1 and 1.1 (0.1 s apart, inside the 0.2 s interval) from
timestamps 0, on a concrete state of each variant. -/
theorem C9_debounce_single_edge_witness :
    iC9a.now - exFaultState.last_mode_press > DEBOUNCE_INTERVAL ∧
    iC9b.now - iC9a.now < DEBOUNCE_INTERVAL ∧
    Rpi.modeSwitchStep (Rpi.modeSwitchStep exFaultState iC9a) iC9b
      = Rpi.modeSwitchStep exFaultState iC9a ∧
    Rpi.stageAdvanceStep (Rpi.stageAdvanceStep exFaultState iC9a) iC9b
      = Rpi.stageAdvanceStep exFaultState iC9a ∧
    (Rpi.manualControlStep exFaultState iC9f1).fan_on = !exFaultState.fan_on ∧
    Rpi.manualControlStep (Rpi.manualControlStep exFaultState iC9f1) iC9f2
      = Rpi.manualControlStep exFaultState iC9f1 ∧
    (Rpi.manualControlStep exFaultState iC9d1).dehumidifier_on
      = !exFaultState.dehumidifier_on ∧
    Rpi.manualControlStep (Rpi.manualControlStep exFaultState iC9d1) iC9d2
      = Rpi.manualControlStep exFaultState iC9d1 ∧
    V222.modeSwitchStep (V222.modeSwitchStep sC8 vC9m1) vC9m2
      = V222.modeSwitchStep sC8 vC9m1 ∧
    (V222.controlStep sC8 vC9s1 20 80).current_stage_index
      = (sC8.current_stage_index + 1) % 4 ∧
    (V222.controlStep (V222.controlStep sC8 vC9s1 20 80) vC9s2 21 81).current_stage_index
      = (V222.controlStep sC8 vC9s1 20 80).current_stage_index ∧
    (V222.controlStep sC8 vC9f1 20 80).fan_on = !sC8.fan_on ∧
    (V222.controlStep (V222.controlStep sC8 vC9f1 20 80) vC9f2 21 81).fan_on
      = (V222.controlStep sC8 vC9f1 20 80).fan_on ∧
    (V222.controlStep sC8 vC9d1 20 80).dehumidifier_on = !sC8.dehumidifier_on ∧
    (V222.controlStep (V222.controlStep sC8 vC9d1 20 80) vC9d2 21 81).dehumidifier_on
      = (V222.controlStep sC8 vC9d1 20 80).dehumidifier_on := by
  have hgt : iC9a.now - exFaultState.last_mode_press > DEBOUNCE_INTERVAL := by
    norm_num [iC9a, exFaultState, DEBOUNCE_INTERVAL]
  have hlt : iC9b.now - iC9a.now < DEBOUNCE_INTERVAL := by
    norm_num [iC9a, iC9b, DEBOUNCE_INTERVAL]
  have h := C9_debounce_single_edge exFaultState iC9a iC9b iC9a iC9b iC9f1 iC9f2
    iC9d1 iC9d2 sC8 vC9m1 vC9m2 vC9s1 vC9s2 vC9f1 vC9f2 vC9d1 vC9d2 20 80 21 81
    rfl hgt rfl hlt rfl hgt rfl hlt rfl rfl hgt rfl rfl hlt rfl rfl hgt rfl rfl hlt
    rfl rfl hgt rfl hlt rfl rfl rfl hgt rfl rfl rfl hlt rfl rfl rfl hgt
    rfl rfl rfl hlt rfl rfl rfl hgt rfl rfl rfl hlt
  obtain ⟨h1, h2, h3, h4, h5, h6, h7, h8, -, -, -, -⟩ := h
  exact ⟨hgt, hlt, h1.2.2, h2.2.2, h3.1, h3.2.2, h4.1, h4.2.2, h5.2.2,
    h6.1, h6.2.2.2.1, h7.1, h7.2.2.1, h8.1, h8.2.2.1⟩

/-! ### Claim C5 -/

/-- Claim C5, counterexample: a debounced stage-button advance taken in
MANUAL mode advances the stage and resets the entry time, but does NOT reset
`stage_start_temp` to the last valid reading — it keeps the stale value 30
while the last reading is 50. -/
theorem C5_manual_advance_keeps_entry_temp_counterexample :
    (Rpi.tick sC5 iC5).current_stage_index = 1 ∧
    (Rpi.tick sC5 iC5).stage_start_time = iC5.now ∧
    (Rpi.tick sC5 iC5).stage_start_temp = 30 ∧
    sC5.temperature = some 50 ∧ (30 : ℚ) ≠ 50 := by
  norm_num [Rpi.tick, Rpi.sensorStep, Rpi.stageAdvanceStep, Rpi.modeSwitchStep,
    Rpi.stageAt, Rpi.CURING_STAGES, Rpi.LEAF_DRYING, DEBOUNCE_INTERVAL, sC5, iC5]
  decide

/-- Claim C5, amended: both triggers move `stage_index` to
`(stage_index + 1) mod N` (so stage 3 wraps to stage 0) and reset
`stage_entered_at = now`; but the entry temperature is reset to the last
valid reading (or the new stage's baseline `min_temp` when none exists) only
when the mode is AUTO — a manual advance taken in MANUAL mode leaves
`stage_start_temp` unchanged — and the automatic AUTO-mode trigger fires only
strictly after the stage duration has elapsed, never at exactly the
duration. -/
theorem C5_stage_advance
    (s : Rpi.State) (inp : Rpi.Input) (s3 : Rpi.State) (now : ℚ)
    (hq : inp.stage_button_pressed = true)
    (hacc : inp.now - s.last_stage_press > DEBOUNCE_INTERVAL)
    (hdur : now - s3.stage_start_time
      > (Rpi.stageAt s3.current_stage_index).duration_hours * 3600) :
    ((Rpi.stageAdvanceStep s inp).current_stage_index = (s.current_stage_index + 1) % 4 ∧
     (Rpi.stageAdvanceStep s inp).stage_start_time = inp.now ∧
     (s.current_mode = Mode.AUTO →
       (Rpi.stageAdvanceStep s inp).stage_start_temp
         = s.temperature.getD (Rpi.stageAt ((s.current_stage_index + 1) % 4)).min_temp) ∧
     (s.current_mode = Mode.MANUAL →
       (Rpi.stageAdvanceStep s inp).stage_start_temp = s.stage_start_temp)) ∧
    (s.current_stage_index = 3 → (Rpi.stageAdvanceStep s inp).current_stage_index = 0) ∧
    ((Rpi.autoAdvanceStep s3 now).current_stage_index = (s3.current_stage_index + 1) % 4 ∧
     (Rpi.autoAdvanceStep s3 now).stage_start_time = now ∧
     (Rpi.autoAdvanceStep s3 now).stage_start_temp
       = s3.temperature.getD (Rpi.stageAt ((s3.current_stage_index + 1) % 4)).min_temp) ∧
    (∀ (s4 : Rpi.State) (n4 : ℚ),
      ¬ (n4 - s4.stage_start_time
          > (Rpi.stageAt s4.current_stage_index).duration_hours * 3600) →
      Rpi.autoAdvanceStep s4 n4 = s4) := by
  have e1 : Rpi.stageAdvanceStep s inp =
      { s with
        last_stage_press := inp.now,
        current_stage_index := (s.current_stage_index + 1) % Rpi.CURING_STAGES.length,
        stage_start_time := inp.now,
        stage_start_temp :=
          if s.current_mode = Mode.AUTO then
            match s.temperature with
            | some t => t
            | none => (Rpi.stageAt ((s.current_stage_index + 1)
                % Rpi.CURING_STAGES.length)).min_temp
          else s.stage_start_temp } := by
    unfold Rpi.stageAdvanceStep
    rw [if_pos ⟨hq, hacc⟩]
  have e2 : Rpi.autoAdvanceStep s3 now =
      { s3 with
        current_stage_index := (s3.current_stage_index + 1) % Rpi.CURING_STAGES.length,
        stage_start_time := now,
        stage_start_temp :=
          match s3.temperature with
          | some t => t
          | none => (Rpi.stageAt ((s3.current_stage_index + 1)
              % Rpi.CURING_STAGES.length)).min_temp } := by
    unfold Rpi.autoAdvanceStep
    rw [if_pos hdur]
  refine ⟨⟨by rw [e1, rpi_stages_length], by rw [e1], ?_, ?_⟩,
      ?_, ⟨by rw [e2, rpi_stages_length], by rw [e2], ?_⟩, ?_⟩
  · intro hmode
    rw [e1, rpi_stages_length]
    simp only [hmode, if_pos]
    cases s.temperature <;> simp [Option.getD]
  · intro hmode
    rw [e1]
    simp [hmode]
  · intro h3
    rw [e1, rpi_stages_length, h3]
  · rw [e2, rpi_stages_length]
    cases s3.temperature <;> simp [Option.getD]
  · intro s4 n4 hn
    unfold Rpi.autoAdvanceStep
    rw [if_neg hn]

/-- Witness for `C5_stage_advance`: a concrete accepted manual advance in
MANUAL mode and a concrete automatic advance 1 s past the 172800 s YELLOWING
duration. -/
theorem C5_stage_advance_witness :
    iC5.stage_button_pressed = true ∧
    iC5.now - sC5.last_stage_press > DEBOUNCE_INTERVAL ∧
    ((172801 : ℚ) - sC5auto.stage_start_time
      > (Rpi.stageAt sC5auto.current_stage_index).duration_hours * 3600) ∧
    ((Rpi.stageAdvanceStep sC5 iC5).current_stage_index
        = (sC5.current_stage_index + 1) % 4 ∧
     (Rpi.stageAdvanceStep sC5 iC5).stage_start_time = iC5.now ∧
     (sC5.current_mode = Mode.MANUAL →
       (Rpi.stageAdvanceStep sC5 iC5).stage_start_temp = sC5.stage_start_temp)) ∧
    ((Rpi.autoAdvanceStep sC5auto 172801).current_stage_index
        = (sC5auto.current_stage_index + 1) % 4 ∧
     (Rpi.autoAdvanceStep sC5auto 172801).stage_start_time = 172801 ∧
     (Rpi.autoAdvanceStep sC5auto 172801).stage_start_temp
       = sC5auto.temperature.getD
           (Rpi.stageAt ((sC5auto.current_stage_index + 1) % 4)).min_temp) := by
  have hacc : iC5.now - sC5.last_stage_press > DEBOUNCE_INTERVAL := by
    norm_num [iC5, sC5, DEBOUNCE_INTERVAL]
  have hdur : (172801 : ℚ) - sC5auto.stage_start_time
      > (Rpi.stageAt sC5auto.current_stage_index).duration_hours * 3600 := by
    norm_num [sC5auto, Rpi.stageAt, Rpi.CURING_STAGES, Rpi.YELLOWING]
  have h := C5_stage_advance sC5 iC5 sC5auto 172801 rfl hacc hdur
  exact ⟨rfl, hacc, hdur, ⟨h.1.1, h.1.2.1, h.1.2.2.2⟩, h.2.2.1⟩

/-! ### The AUTO-mode target / actuator computation -/

theorem pyInt_eq_floor (q : ℚ) (h : 0 ≤ q) : pyInt q = ⌊q⌋ := by
  simp [pyInt, h]

theorem rpi_autoAdvance_no_fire (s : Rpi.State) (now : ℚ)
    (hn : ¬ (now - s.stage_start_time
        > (Rpi.stageAt s.current_stage_index).duration_hours * 3600)) :
    Rpi.autoAdvanceStep s now = s := by
  unfold Rpi.autoAdvanceStep
  rw [if_neg hn]

/-- On a tick with no pending automatic advance, the AUTO control body stores
`min (entry + 1 + floor(elapsed / 3600)) max_temp` as the target, drives the
dehumidifier by hysteresis around that target, and drives the fan from the
stage's ramp flag during ramp phase or the same hysteresis band during
maintenance phase. -/
theorem rpi_autoControl_spec (s : Rpi.State) (t now : ℚ)
    (h0 : 0 ≤ now - s.stage_start_time)
    (hdur : ¬ (now - s.stage_start_time
        > (Rpi.stageAt s.current_stage_index).duration_hours * 3600)) :
    (Rpi.autoControlStep s t now).auto_target_temp
       = min (s.stage_start_temp + 1 + (⌊(now - s.stage_start_time) / 3600⌋ : ℚ))
           (Rpi.stageAt s.current_stage_index).max_temp ∧
    (Rpi.autoControlStep s t now).dehumidifier_on
       = (if t < min (s.stage_start_temp + 1 + (⌊(now - s.stage_start_time) / 3600⌋ : ℚ))
              (Rpi.stageAt s.current_stage_index).max_temp - 2 then true
          else if t > min (s.stage_start_temp + 1 + (⌊(now - s.stage_start_time) / 3600⌋ : ℚ))
              (Rpi.stageAt s.current_stage_index).max_temp + 2 then false
          else s.dehumidifier_on) ∧
    (Rpi.autoControlStep s t now).fan_on
       = (if s.stage_start_temp + 1 + (⌊(now - s.stage_start_time) / 3600⌋ : ℚ)
              < (Rpi.stageAt s.current_stage_index).max_temp then
            (Rpi.stageAt s.current_stage_index).ramp_fan_on
          else if t < (Rpi.stageAt s.current_stage_index).max_temp - 2 then true
          else if t > (Rpi.stageAt s.current_stage_index).max_temp + 2 then false
          else s.fan_on) ∧
    (Rpi.autoControlStep s t now).current_stage_index = s.current_stage_index := by
  have hfl : pyInt ((now - s.stage_start_time) / 3600)
      = ⌊(now - s.stage_start_time) / 3600⌋ :=
    pyInt_eq_floor _ (div_nonneg h0 (by norm_num))
  simp only [Rpi.autoControlStep, rpi_autoAdvance_no_fire s now hdur, hfl]
  by_cases h1 : s.stage_start_temp + 1 + (⌊(now - s.stage_start_time) / 3600⌋ : ℚ)
      < (Rpi.stageAt s.current_stage_index).max_temp
  · rw [if_pos h1, if_pos h1, min_eq_left h1.le]
    exact ⟨rfl, rfl, rfl, rfl⟩
  · rw [if_neg h1, if_neg h1, min_eq_right (not_lt.mp h1)]
    split_ifs <;> exact ⟨rfl, rfl, rfl, rfl⟩

/-- Bridge: a buttonless AUTO tick with a valid reading behaves as the AUTO
control body applied to the state with the fresh reading stored, and its
alarm is the stage-window check on the reading. -/
theorem rpi_tick_auto_bridge (s : Rpi.State) (inp : Rpi.Input) (t h : ℚ)
    (hm : inp.mode_button_pressed = false) (hs : inp.stage_button_pressed = false)
    (hmode : s.current_mode = Mode.AUTO) (hok : inp.sensor = SensorResult.ok t h) :
    (Rpi.tick s inp).auto_target_temp
      = (Rpi.autoControlStep { s with temperature := some t, humidity := some h }
          t inp.now).auto_target_temp ∧
    (Rpi.tick s inp).fan_on
      = (Rpi.autoControlStep { s with temperature := some t, humidity := some h }
          t inp.now).fan_on ∧
    (Rpi.tick s inp).dehumidifier_on
      = (Rpi.autoControlStep { s with temperature := some t, humidity := some h }
          t inp.now).dehumidifier_on ∧
    (Rpi.tick s inp).current_stage_index
      = (Rpi.autoControlStep { s with temperature := some t, humidity := some h }
          t inp.now).current_stage_index ∧
    (Rpi.tick s inp).buzzer_on
      = !(decide ((Rpi.stageAt (Rpi.autoControlStep
            { s with temperature := some t, humidity := some h }
            t inp.now).current_stage_index).min_temp ≤ t ∧
          t ≤ (Rpi.stageAt (Rpi.autoControlStep
            { s with temperature := some t, humidity := some h }
            t inp.now).current_stage_index).max_temp)) := by
  unfold Rpi.tick
  rw [rpi_modeSwitch_no_press s inp hm, rpi_stageAdvance_no_press s inp hs]
  unfold Rpi.sensorStep
  rw [hok]
  simp only [hmode]
  exact ⟨rfl, rfl, rfl, rfl, rfl⟩

/-! ### Claim C2 -/

/-- Claim C2: on every buttonless AUTO tick with a valid reading, inside the
stage duration (no pending automatic advance) and with the stage's ramp flag
set, the stored target equals
`entry + 1 + floor(elapsed / 3600)` clamped at the stage maximum, never
exceeds that maximum, and is monotonically non-decreasing in the elapsed
time. -/
theorem C2_ramp_target
    (s : Rpi.State) (inp inp2 : Rpi.Input) (t t2 h h2 : ℚ)
    (hm : inp.mode_button_pressed = false) (hs : inp.stage_button_pressed = false)
    (hmode : s.current_mode = Mode.AUTO) (hok : inp.sensor = SensorResult.ok t h)
    (hramp : (Rpi.stageAt s.current_stage_index).ramp_fan_on = true)
    (h0 : 0 ≤ inp.now - s.stage_start_time)
    (hdur : inp.now - s.stage_start_time
      ≤ (Rpi.stageAt s.current_stage_index).duration_hours * 3600)
    (hm2 : inp2.mode_button_pressed = false) (hs2 : inp2.stage_button_pressed = false)
    (hok2 : inp2.sensor = SensorResult.ok t2 h2)
    (hle : inp.now ≤ inp2.now)
    (hdur2 : inp2.now - s.stage_start_time
      ≤ (Rpi.stageAt s.current_stage_index).duration_hours * 3600) :
    (Rpi.tick s inp).auto_target_temp
      = min (s.stage_start_temp + 1 + (⌊(inp.now - s.stage_start_time) / 3600⌋ : ℚ))
          (Rpi.stageAt s.current_stage_index).max_temp ∧
    (Rpi.tick s inp).auto_target_temp ≤ (Rpi.stageAt s.current_stage_index).max_temp ∧
    (Rpi.tick s inp).auto_target_temp ≤ (Rpi.tick s inp2).auto_target_temp := by
  have h02 : 0 ≤ inp2.now - s.stage_start_time := le_trans h0 (by linarith)
  have e1 : (Rpi.tick s inp).auto_target_temp
      = min (s.stage_start_temp + 1 + (⌊(inp.now - s.stage_start_time) / 3600⌋ : ℚ))
          (Rpi.stageAt s.current_stage_index).max_temp :=
    (rpi_tick_auto_bridge s inp t h hm hs hmode hok).1.trans
      (rpi_autoControl_spec { s with temperature := some t, humidity := some h }
        t inp.now h0 (not_lt.mpr hdur)).1
  have e2 : (Rpi.tick s inp2).auto_target_temp
      = min (s.stage_start_temp + 1 + (⌊(inp2.now - s.stage_start_time) / 3600⌋ : ℚ))
          (Rpi.stageAt s.current_stage_index).max_temp :=
    (rpi_tick_auto_bridge s inp2 t2 h2 hm2 hs2 hmode hok2).1.trans
      (rpi_autoControl_spec { s with temperature := some t2, humidity := some h2 }
        t2 inp2.now h02 (not_lt.mpr hdur2)).1
  refine ⟨e1, ?_, ?_⟩
  · rw [e1]
    exact min_le_right _ _
  · rw [e1, e2]
    have hsub : inp.now - s.stage_start_time ≤ inp2.now - s.stage_start_time :=
      sub_le_sub_right hle _
    have hfl : (⌊(inp.now - s.stage_start_time) / 3600⌋ : ℚ)
        ≤ (⌊(inp2.now - s.stage_start_time) / 3600⌋ : ℚ) := by
      exact_mod_cast Int.floor_le_floor (by gcongr)
    exact min_le_min (by linarith) (le_refl _)

/-- Witness for `C2_ramp_target`: entry 40.0, stage max 55.0, elapsed exactly
3600 s gives target 42.0 (= entry + 2, below the max), and the target one
hour later is no smaller. -/
theorem C2_ramp_target_witness :
    sC2.current_mode = Mode.AUTO ∧
    (Rpi.stageAt sC2.current_stage_index).ramp_fan_on = true ∧
    0 ≤ iC2a.now - sC2.stage_start_time ∧
    iC2a.now - sC2.stage_start_time
      ≤ (Rpi.stageAt sC2.current_stage_index).duration_hours * 3600 ∧
    ((Rpi.tick sC2 iC2a).auto_target_temp
      = min (sC2.stage_start_temp + 1 + (⌊(iC2a.now - sC2.stage_start_time) / 3600⌋ : ℚ))
          (Rpi.stageAt sC2.current_stage_index).max_temp ∧
     (Rpi.tick sC2 iC2a).auto_target_temp ≤ (Rpi.stageAt sC2.current_stage_index).max_temp ∧
     (Rpi.tick sC2 iC2a).auto_target_temp ≤ (Rpi.tick sC2 iC2b).auto_target_temp) ∧
    (Rpi.tick sC2 iC2a).auto_target_temp = 42 := by
  have h0 : 0 ≤ iC2a.now - sC2.stage_start_time := by norm_num [iC2a, sC2]
  have hdur : iC2a.now - sC2.stage_start_time
      ≤ (Rpi.stageAt sC2.current_stage_index).duration_hours * 3600 := by
    norm_num [iC2a, sC2, Rpi.stageAt, Rpi.CURING_STAGES, Rpi.LEAF_DRYING]
  have hdur2 : iC2b.now - sC2.stage_start_time
      ≤ (Rpi.stageAt sC2.current_stage_index).duration_hours * 3600 := by
    norm_num [iC2b, sC2, Rpi.stageAt, Rpi.CURING_STAGES, Rpi.LEAF_DRYING]
  have hle : iC2a.now ≤ iC2b.now := by norm_num [iC2a, iC2b]
  have h := C2_ramp_target sC2 iC2a iC2b 41 41 60 60 rfl rfl rfl rfl rfl h0 hdur
    rfl rfl rfl hle hdur2
  refine ⟨rfl, rfl, h0, hdur, h, ?_⟩
  rw [h.1]
  norm_num [sC2, iC2a, Rpi.stageAt, Rpi.CURING_STAGES, Rpi.LEAF_DRYING]

/-! ### Claim C4 -/

/-- Claim C4, counterexample: in the flag-false YELLOWING stage the AUTO
target is 36 at stage entry and 37 one hour later — it is neither the fixed
configured setpoint 35 nor constant over the stage. -/
theorem C4_fixed_setpoint_counterexample :
    Rpi.YELLOWING.ramp_fan_on = false ∧
    Rpi.YELLOWING.temp = 35 ∧
    (Rpi.tick sC4 iC4a).auto_target_temp = 36 ∧
    (Rpi.tick sC4 iC4b).auto_target_temp = 37 ∧
    (36 : ℚ) ≠ 35 ∧ (37 : ℚ) ≠ 36 := by
  refine ⟨rfl, rfl, ?_, ?_, by norm_num, by norm_num⟩ <;>
  · norm_num [Rpi.tick, Rpi.sensorStep, Rpi.autoControlStep, Rpi.autoAdvanceStep,
      Rpi.stageAdvanceStep, Rpi.modeSwitchStep, Rpi.stageAt, Rpi.CURING_STAGES,
      Rpi.YELLOWING, pyInt, DEBOUNCE_INTERVAL, sC4, iC4a, iC4b]

/-- Claim C4, amended: the ramp-target formula is applied uniformly to every
stage in AUTO mode — also when the stage's ramp flag is false — so the target
for a flag-false stage is `entry + 1 + floor(elapsed / 3600)` clamped at the
stage maximum, not the stage's fixed configured setpoint; the flag only
selects whether the fan is forced on during the ramp phase. -/
theorem C4_flag_false_stage_still_ramps
    (s : Rpi.State) (inp : Rpi.Input) (t h : ℚ)
    (hm : inp.mode_button_pressed = false) (hs : inp.stage_button_pressed = false)
    (hmode : s.current_mode = Mode.AUTO) (hok : inp.sensor = SensorResult.ok t h)
    (hflag : (Rpi.stageAt s.current_stage_index).ramp_fan_on = false)
    (h0 : 0 ≤ inp.now - s.stage_start_time)
    (hdur : inp.now - s.stage_start_time
      ≤ (Rpi.stageAt s.current_stage_index).duration_hours * 3600) :
    (Rpi.tick s inp).auto_target_temp
      = min (s.stage_start_temp + 1 + (⌊(inp.now - s.stage_start_time) / 3600⌋ : ℚ))
          (Rpi.stageAt s.current_stage_index).max_temp ∧
    (s.stage_start_temp + 1 + (⌊(inp.now - s.stage_start_time) / 3600⌋ : ℚ)
        < (Rpi.stageAt s.current_stage_index).max_temp →
      (Rpi.tick s inp).fan_on = false) :=
  ⟨(rpi_tick_auto_bridge s inp t h hm hs hmode hok).1.trans
    (rpi_autoControl_spec { s with temperature := some t, humidity := some h }
      t inp.now h0 (not_lt.mpr hdur)).1,
   fun hram => by
    rw [(rpi_tick_auto_bridge s inp t h hm hs hmode hok).2.1,
      (rpi_autoControl_spec { s with temperature := some t, humidity := some h }
        t inp.now h0 (not_lt.mpr hdur)).2.2.1, if_pos hram, hflag]⟩

/-- Witness for `C4_flag_false_stage_still_ramps` at the concrete YELLOWING
tick of the counterexample, one hour into the stage. -/
theorem C4_flag_false_stage_still_ramps_witness :
    sC4.current_mode = Mode.AUTO ∧
    (Rpi.stageAt sC4.current_stage_index).ramp_fan_on = false ∧
    0 ≤ iC4b.now - sC4.stage_start_time ∧
    iC4b.now - sC4.stage_start_time
      ≤ (Rpi.stageAt sC4.current_stage_index).duration_hours * 3600 ∧
    (Rpi.tick sC4 iC4b).auto_target_temp
      = min (sC4.stage_start_temp + 1 + (⌊(iC4b.now - sC4.stage_start_time) / 3600⌋ : ℚ))
          (Rpi.stageAt sC4.current_stage_index).max_temp := by
  have h0 : 0 ≤ iC4b.now - sC4.stage_start_time := by norm_num [iC4b, sC4]
  have hdur : iC4b.now - sC4.stage_start_time
      ≤ (Rpi.stageAt sC4.current_stage_index).duration_hours * 3600 := by
    norm_num [iC4b, sC4, Rpi.stageAt, Rpi.CURING_STAGES, Rpi.YELLOWING]
  exact ⟨rfl, rfl, h0, hdur,
    (C4_flag_false_stage_still_ramps sC4 iC4b 35 80 rfl rfl rfl rfl rfl h0 hdur).1⟩

/-! ### Claim C3 -/

/-- On any tick with a valid reading, the alarm stored by the tick is the
stage-window check `NOT (min_temp ≤ reading ≤ max_temp)` for the stage that
is current at the end of the tick. -/
theorem rpi_tick_buzzer (s : Rpi.State) (inp : Rpi.Input) (t h : ℚ)
    (hok : inp.sensor = SensorResult.ok t h) :
    (Rpi.tick s inp).buzzer_on
      = !(decide ((Rpi.stageAt (Rpi.tick s inp).current_stage_index).min_temp ≤ t ∧
          t ≤ (Rpi.stageAt (Rpi.tick s inp).current_stage_index).max_temp)) := by
  unfold Rpi.tick Rpi.sensorStep
  rw [hok]

theorem rpi_modeSwitch_buzzer_comm (s : Rpi.State) (inp : Rpi.Input) (b : Bool) :
    Rpi.modeSwitchStep { s with buzzer_on := b } inp
      = { Rpi.modeSwitchStep s inp with buzzer_on := b } := by
  simp only [Rpi.modeSwitchStep]
  split_ifs <;> rfl

theorem rpi_stageAdvance_buzzer_comm (s : Rpi.State) (inp : Rpi.Input) (b : Bool) :
    Rpi.stageAdvanceStep { s with buzzer_on := b } inp
      = { Rpi.stageAdvanceStep s inp with buzzer_on := b } := by
  simp only [Rpi.stageAdvanceStep]
  split_ifs <;> rfl

theorem rpi_autoAdvance_buzzer_comm (s : Rpi.State) (now : ℚ) (b : Bool) :
    Rpi.autoAdvanceStep { s with buzzer_on := b } now
      = { Rpi.autoAdvanceStep s now with buzzer_on := b } := by
  simp only [Rpi.autoAdvanceStep]
  split_ifs <;> rfl

set_option maxRecDepth 8000 in
theorem rpi_autoControl_buzzer_comm (s : Rpi.State) (t now : ℚ) (b : Bool) :
    Rpi.autoControlStep { s with buzzer_on := b } t now
      = { Rpi.autoControlStep s t now with buzzer_on := b } := by
  unfold Rpi.autoControlStep Rpi.autoAdvanceStep
  dsimp only
  split_ifs <;> rfl

theorem rpi_manualControl_buzzer_comm (s : Rpi.State) (inp : Rpi.Input) (b : Bool) :
    Rpi.manualControlStep { s with buzzer_on := b } inp
      = { Rpi.manualControlStep s inp with buzzer_on := b } := by
  simp only [Rpi.manualControlStep]
  split_ifs <;> rfl

/-- The alarm value held in the state when the actuator-command computation
runs (the AUTO control body or the MANUAL toggle handling) has no effect on
the fan or dehumidifier commands it produces. -/
theorem rpi_control_buzzer_indep (s : Rpi.State) (inp : Rpi.Input) (t now : ℚ) (b : Bool) :
    (Rpi.autoControlStep { s with buzzer_on := b } t now).fan_on
      = (Rpi.autoControlStep s t now).fan_on ∧
    (Rpi.autoControlStep { s with buzzer_on := b } t now).dehumidifier_on
      = (Rpi.autoControlStep s t now).dehumidifier_on ∧
    (Rpi.manualControlStep { s with buzzer_on := b } inp).fan_on
      = (Rpi.manualControlStep s inp).fan_on ∧
    (Rpi.manualControlStep { s with buzzer_on := b } inp).dehumidifier_on
      = (Rpi.manualControlStep s inp).dehumidifier_on := by
  rw [rpi_autoControl_buzzer_comm, rpi_manualControl_buzzer_comm]
  exact ⟨rfl, rfl, rfl, rfl⟩

/-- Claim C3, counterexample: with target 42 and dead-band 2, the reading 50
lies outside the target-centred window [40, 44], so the claim requires the
alarm to be asserted; the code leaves the alarm off because 50 lies inside
the stage's static window [45, 55]. -/
theorem C3_alarm_window_counterexample :
    (Rpi.tick sC3 iC3).auto_target_temp = 42 ∧
    (Rpi.tick sC3 iC3).buzzer_on = false ∧
    ¬ ((42 : ℚ) - 2 ≤ 50 ∧ (50 : ℚ) ≤ 42 + 2) := by
  refine ⟨?_, ?_, by norm_num⟩ <;>
  · norm_num [Rpi.tick, Rpi.sensorStep, Rpi.autoControlStep, Rpi.autoAdvanceStep,
      Rpi.stageAdvanceStep, Rpi.modeSwitchStep, Rpi.stageAt, Rpi.CURING_STAGES,
      Rpi.LEAF_DRYING, pyInt, DEBOUNCE_INTERVAL, sC3, iC3]

/-- Claim C3, amended: on every tick with a valid reading the alarm equals
`NOT (stage.min_temp ≤ reading ≤ stage.max_temp)` — the window is the active
stage's static `[min_temp, max_temp]` band, not a dead-band window centred on
the current target — and the alarm value has no effect on the fan or
dehumidifier commands. -/
theorem C3_alarm_is_stage_window (s : Rpi.State) (inp : Rpi.Input) (t h : ℚ)
    (hok : inp.sensor = SensorResult.ok t h) :
    ((Rpi.tick s inp).buzzer_on = true ↔
      ¬ ((Rpi.stageAt (Rpi.tick s inp).current_stage_index).min_temp ≤ t ∧
         t ≤ (Rpi.stageAt (Rpi.tick s inp).current_stage_index).max_temp)) ∧
    (∀ b : Bool,
      (Rpi.autoControlStep { s with buzzer_on := b } t inp.now).fan_on
        = (Rpi.autoControlStep s t inp.now).fan_on ∧
      (Rpi.autoControlStep { s with buzzer_on := b } t inp.now).dehumidifier_on
        = (Rpi.autoControlStep s t inp.now).dehumidifier_on ∧
      (Rpi.manualControlStep { s with buzzer_on := b } inp).fan_on
        = (Rpi.manualControlStep s inp).fan_on ∧
      (Rpi.manualControlStep { s with buzzer_on := b } inp).dehumidifier_on
        = (Rpi.manualControlStep s inp).dehumidifier_on) := by
  refine ⟨?_, fun b => rpi_control_buzzer_indep s inp t inp.now b⟩
  rw [rpi_tick_buzzer s inp t h hok]
  simp only [Bool.not_eq_true', decide_eq_false_iff_not]

/-- Witness for `C3_alarm_is_stage_window` at the counterexample tick: the
reading 50 is inside LEAF_DRYING's [45, 55] window, so the alarm is off. -/
theorem C3_alarm_is_stage_window_witness :
    iC3.sensor = SensorResult.ok 50 60 ∧
    ((Rpi.tick sC3 iC3).buzzer_on = true ↔
      ¬ ((Rpi.stageAt (Rpi.tick sC3 iC3).current_stage_index).min_temp ≤ 50 ∧
         (50 : ℚ) ≤ (Rpi.stageAt (Rpi.tick sC3 iC3).current_stage_index).max_temp)) :=
  ⟨rfl, (C3_alarm_is_stage_window sC3 iC3 50 60 rfl).1⟩

/-! ### Claim C6 -/

/-- Claim C6, counterexample: in the rpi variant, an AUTO tick with a valid
reading whose humidity 90 strictly exceeds the stage's humidity setpoint 70
leaves the dehumidifier OFF — that variant drives the dehumidifier by
temperature hysteresis and never reads the humidity setpoint. -/
theorem C6_dehumidifier_humidity_counterexample :
    sC6.current_mode = Mode.AUTO ∧
    iC6.sensor = SensorResult.ok 41 90 ∧
    (Rpi.stageAt sC6.current_stage_index).humidity = 70 ∧
    (90 : ℚ) > 70 ∧
    (Rpi.tick sC6 iC6).dehumidifier_on = false := by
  refine ⟨rfl, rfl, rfl, by norm_num, ?_⟩
  norm_num [Rpi.tick, Rpi.sensorStep, Rpi.autoControlStep, Rpi.autoAdvanceStep,
    Rpi.stageAdvanceStep, Rpi.modeSwitchStep, Rpi.stageAt, Rpi.CURING_STAGES,
    Rpi.LEAF_DRYING, pyInt, DEBOUNCE_INTERVAL, sC6, iC6]

/-- Claim C6, amended: the humidity-threshold rule holds only in the 222
variant — there, on a buttonless AUTO tick with a valid reading, the
dehumidifier is ON exactly when the humidity reading strictly exceeds the
humidity setpoint of the stage current at the start of the tick; in the rpi
variant the dehumidifier is instead driven by temperature hysteresis around
the ramp target (ON below target − 2, OFF above target + 2, otherwise
unchanged) and the humidity setpoint is not consulted. -/
theorem C6_dehumidifier_semantics
    (s2 : V222.State) (inp2 : V222.Input) (t2 h2 : ℚ)
    (hm2 : inp2.mode_button_pressed = false)
    (hmode2 : s2.current_mode = Mode.AUTO)
    (hok2 : inp2.sensor = SensorResult.ok t2 h2)
    (s : Rpi.State) (inp : Rpi.Input) (t h : ℚ)
    (hm : inp.mode_button_pressed = false) (hs : inp.stage_button_pressed = false)
    (hmode : s.current_mode = Mode.AUTO) (hok : inp.sensor = SensorResult.ok t h)
    (h0 : 0 ≤ inp.now - s.stage_start_time)
    (hdur : inp.now - s.stage_start_time
      ≤ (Rpi.stageAt s.current_stage_index).duration_hours * 3600) :
    (V222.tick s2 inp2).dehumidifier_on
      = decide (h2 > (V222.stageAt s2.current_stage_index).humidity) ∧
    (Rpi.tick s inp).dehumidifier_on
      = (if t < min (s.stage_start_temp + 1 + (⌊(inp.now - s.stage_start_time) / 3600⌋ : ℚ))
             (Rpi.stageAt s.current_stage_index).max_temp - 2 then true
         else if t > min (s.stage_start_temp + 1 + (⌊(inp.now - s.stage_start_time) / 3600⌋ : ℚ))
             (Rpi.stageAt s.current_stage_index).max_temp + 2 then false
         else s.dehumidifier_on) := by
  constructor
  · simp only [V222.tick]
    rw [v222_modeSwitch_no_press s2 inp2 hm2, hok2]
    simp only [V222.controlStep, hmode2, if_true]
  · exact (rpi_tick_auto_bridge s inp t h hm hs hmode hok).2.2.1.trans
      ((rpi_autoControl_spec { s with temperature := some t, humidity := some h }
        t inp.now h0 (not_lt.mpr hdur)).2.1)

/-- Witness for `C6_dehumidifier_semantics` at concrete AUTO ticks of both
variants. -/
theorem C6_dehumidifier_semantics_witness :
    sC6v.current_mode = Mode.AUTO ∧
    sC6.current_mode = Mode.AUTO ∧
    ((V222.tick sC6v iC6v).dehumidifier_on
        = decide ((90 : ℚ) > (V222.stageAt sC6v.current_stage_index).humidity) ∧
     (Rpi.tick sC6 iC6).dehumidifier_on
        = (if (41 : ℚ) < min (sC6.stage_start_temp
                + 1 + (⌊(iC6.now - sC6.stage_start_time) / 3600⌋ : ℚ))
              (Rpi.stageAt sC6.current_stage_index).max_temp - 2 then true
           else if (41 : ℚ) > min (sC6.stage_start_temp
                + 1 + (⌊(iC6.now - sC6.stage_start_time) / 3600⌋ : ℚ))
              (Rpi.stageAt sC6.current_stage_index).max_temp + 2 then false
           else sC6.dehumidifier_on)) := by
  have h0 : 0 ≤ iC6.now - sC6.stage_start_time := by norm_num [iC6, sC6]
  have hdur : iC6.now - sC6.stage_start_time
      ≤ (Rpi.stageAt sC6.current_stage_index).duration_hours * 3600 := by
    norm_num [iC6, sC6, Rpi.stageAt, Rpi.CURING_STAGES, Rpi.LEAF_DRYING]
  exact ⟨rfl, rfl,
    C6_dehumidifier_semantics sC6v iC6v 30 90 rfl rfl rfl sC6 iC6 41 90
      rfl rfl rfl rfl h0 hdur⟩

/-! ### Claim C8 -/

/-- Claim C8, counterexample: in MANUAL mode a tick with reading 20 below the
stage setpoint 35 turns the heater ON — the heater is not held OFF in MANUAL
mode. -/
theorem C8_manual_heater_counterexample :
    sC8.current_mode = Mode.MANUAL ∧
    (V222.stageAt sC8.current_stage_index).temp = 35 ∧
    (V222.tick sC8 iC8).heater_on = true := by
  refine ⟨rfl, rfl, ?_⟩
  norm_num [V222.tick, V222.controlStep, V222.modeSwitchStep, V222.stageAt,
    V222.CURING_STAGES, V222.YELLOWING, DEBOUNCE_INTERVAL, sC8, iC8]
  split_ifs <;> rfl

/-- Claim C8, amended: in MANUAL mode the heater is not held OFF — it follows
the same thermostat rule as AUTO mode: on every MANUAL tick with a valid
reading the heater command is ON exactly when the temperature reading is
strictly below the temp setpoint of the stage current at the start of the
tick. -/
theorem C8_manual_heater_thermostat
    (s : V222.State) (inp : V222.Input) (t h : ℚ)
    (hm : inp.mode_button_pressed = false)
    (hmode : s.current_mode = Mode.MANUAL)
    (hok : inp.sensor = SensorResult.ok t h) :
    (V222.tick s inp).heater_on
      = decide (t < (V222.stageAt s.current_stage_index).temp) := by
  simp only [V222.tick]
  rw [v222_modeSwitch_no_press s inp hm, hok]
  simp only [V222.controlStep, hmode]
  rw [if_neg (by decide : ¬ (Mode.MANUAL = Mode.AUTO))]

/-- Witness for `C8_manual_heater_thermostat` at the concrete MANUAL tick of
the counterexample. -/
theorem C8_manual_heater_thermostat_witness :
    sC8.current_mode = Mode.MANUAL ∧
    iC8.sensor = SensorResult.ok 20 80 ∧
    (V222.tick sC8 iC8).heater_on
      = decide ((20 : ℚ) < (V222.stageAt sC8.current_stage_index).temp) :=
  ⟨rfl, rfl, C8_manual_heater_thermostat sC8 iC8 20 80 rfl rfl rfl⟩
